import Mathlib

/-!
Verification development for the go-vpn control plane and client runtime.

The Go sources are embedded shallowly:

* IPv4 addresses (`net.IP` holding a 4-byte address) are the natural number
  given by the big-endian byte value, so `ip[len(ip)-1]` is `ip % 256` and
  byte-wise increment with carry is `(ip + 1) % 2^32`.  The Go code keys its
  maps by `ip.String()`, which is injective on 32-bit values, so tracking maps
  are modelled as lists of the numeric addresses.
* Go `error` values are `GoError`: `fmt.Errorf` without `%w` yields a plain
  `errorString`, `fmt.Errorf` with `%w` yields `wrapError` keeping its cause.
* Fallible functions return `Except GoError`; mutation is explicit state
  passing; external effects (the wireguard device, IPC, route commands and
  pings) are injected as environment records of call results.
-/

/-- Go error values: `errorString` is an error built by `fmt.Errorf` (or
`errors.New`) without a `%w` verb, carrying only its message; `wrapError` is
an error built by `fmt.Errorf` with `%w`, keeping the wrapped cause. -/
inductive GoError where
  | errorString (msg : String)
  | wrapError (msg : String) (cause : GoError)
deriving DecidableEq, Repr

/-- Whether a Go error is a plain formatted error (dynamic type
`errors.errorString`), the kind callers cannot distinguish from any other
formatted error except by comparing message text. -/
def GoError.isGenericFormatted : GoError → Bool
  | .errorString _ => true
  | .wrapError _ _ => false

namespace Ipam

/-- 2^32, the modulus of 4-byte IPv4 arithmetic. -/
def u32 : Nat := 4294967296

/-- Mirrors incrementIP (allocator.go 356-363): byte-wise increment with
carry over the 4 address bytes, i.e. +1 modulo 2^32. -/
def incrementIP (ip : Nat) : Nat := (ip + 1) % u32

/-- Splits a character list at every occurrence of `sep`, keeping empty
fields, as Go's strings.Split does on the bytes of the string. -/
def splitFields (sep : Char) : List Char → List (List Char)
  | [] => [[]]
  | c :: cs =>
    match splitFields sep cs with
    | [] => if c == sep then [[], []] else [[c]]
    | f :: rest => if c == sep then [] :: f :: rest else (c :: f) :: rest

/-- One dotted-quad field as Go's net.ParseIP reads it: 1-3 decimal digits,
no leading zero (rejected since Go 1.17), value at most 255. -/
def parseOctet (cs : List Char) : Option Nat :=
  if cs.isEmpty then none
  else if !(cs.all Char.isDigit) then none
  else if cs.length > 1 && (cs.headD '0' == '0') then none
  else if cs.length > 3 then none
  else
    let n := cs.foldl (fun acc c => acc * 10 + (c.toNat - 48)) 0
    if n ≤ 255 then some n else none

/-- Go's net.ParseIP restricted to dotted-quad IPv4 (the only address family
this repository feeds it): exactly four octet fields.  IPv6 forms are out of
scope and map to `none`. -/
def parseIPv4 (s : String) : Option Nat :=
  match splitFields '.' s.data with
  | [a, b, c, d] => do
    let oa ← parseOctet a
    let ob ← parseOctet b
    let oc ← parseOctet c
    let od ← parseOctet d
    pure (((oa * 256 + ob) * 256 + oc) * 256 + od)
  | _ => none

/-- The prefix length of a CIDR string as Go's dtoi reads it: decimal digits,
value at most 32 for IPv4. -/
def parseMaskBits (cs : List Char) : Option Nat :=
  if cs.isEmpty then none
  else if !(cs.all Char.isDigit) then none
  else
    let n := cs.foldl (fun acc c => acc * 10 + (c.toNat - 48)) 0
    if n ≤ 32 then some n else none

/-- Whether `ip` lies in the network `base/bits` (Go's IPNet.Contains):
the top `bits` bits agree. -/
def cidrContains (base bits ip : Nat) : Bool :=
  ip / 2 ^ (32 - bits) == base / 2 ^ (32 - bits)

/-- Go's net.ParseCIDR on IPv4: address part before the slash, decimal
prefix length after it.  Returns the address as written, the masked network
number and the prefix length (net.ParseCIDR returns the address and the
masked IPNet). -/
def parseCIDR (s : String) : Option (Nat × Nat × Nat) :=
  match splitFields '/' s.data with
  | [addr, mask] => do
    let ip ← parseIPv4 (String.mk addr)
    let bits ← parseMaskBits mask
    pure (ip, ip / 2 ^ (32 - bits) * 2 ^ (32 - bits), bits)
  | _ => none

/-- Dotted-quad rendering of a 32-bit address, Go's net.IP.String for IPv4. -/
def ipToString (ip : Nat) : String :=
  toString (ip / 16777216 % 256) ++ "." ++ toString (ip / 65536 % 256) ++ "."
    ++ toString (ip / 256 % 256) ++ "." ++ toString (ip % 256)

/-- Mirrors ipam.Config (allocator.go 40-47). -/
structure Config where
  CIDR : String
  Gateway : String
  EnableOptimizations : Bool
deriving DecidableEq, Repr

/-- Mirrors ipam.DefaultConfig (allocator.go 50-56). -/
def DefaultConfig : Config :=
  { CIDR := "10.0.0.0/24", Gateway := "10.0.0.1", EnableOptimizations := true }

/-- Mirrors ipam.ConfigFromNetwork (allocator.go 59-65). -/
def ConfigFromNetwork (cidr gateway : String) : Config :=
  { CIDR := cidr, Gateway := gateway, EnableOptimizations := true }

/-- Mirrors ipam.Allocator (allocator.go 18-29).  `allocatedIPs` is the
tracking map keyed by `ip.String()` (injective on 32-bit values, so kept as
the list of numeric addresses); `none` means optimizations are disabled.
The stats fields keep the two counters of AllocationStats; the wall-clock
timestamp is outside the model. -/
structure Allocator where
  cidrBase : Nat
  maskBits : Nat
  gateway : Nat
  startIP : Nat
  endIP : Nat
  allocatedIPs : Option (List Nat)
  lastAllocated : Nat
  totalAllocations : Nat
  failedAllocations : Nat
deriving DecidableEq, Repr

/-- Mirrors ipam.NewAllocator (allocator.go 68-116): parse the CIDR and the
gateway, require the gateway inside the CIDR, start the range at last octet
2 and end it at last octet 254, and when optimizations are enabled seed the
tracking map with the gateway. -/
def NewAllocator (config : Config) : Except GoError Allocator :=
  match parseCIDR config.CIDR with
  | none =>
    .error (.wrapError ("invalid CIDR " ++ config.CIDR)
      (.errorString ("invalid CIDR address: " ++ config.CIDR)))
  | some (_, base, bits) =>
    match parseIPv4 config.Gateway with
    | none => .error (.errorString ("invalid gateway IP " ++ config.Gateway))
    | some gw =>
      if cidrContains base bits gw then
        let s := base / 256 * 256 + 2
        .ok { cidrBase := base, maskBits := bits, gateway := gw,
              startIP := s, endIP := base / 256 * 256 + 254,
              allocatedIPs := if config.EnableOptimizations then some [gw] else none,
              lastAllocated := if config.EnableOptimizations then s else 0,
              totalAllocations := 0, failedAllocations := 0 }
      else
        .error (.errorString
          ("gateway " ++ config.Gateway ++ " not in CIDR " ++ config.CIDR))

/-- The network address the scan must skip (allocator.go 352:
`startIP.Mask(cidr.Mask)`). -/
def networkAddr (a : Allocator) : Nat :=
  a.startIP / 2 ^ (32 - a.maskBits) * 2 ^ (32 - a.maskBits)

/-- Mirrors Allocator.isIPInRange (allocator.go 344-353): quick last-octet
bounds check, then CIDR containment, then not the network address. -/
def isIPInRange (a : Allocator) (ip : Nat) : Bool :=
  if ip % 256 < a.startIP % 256 ∨ a.endIP % 256 < ip % 256 then false
  else cidrContains a.cidrBase a.maskBits ip && !(ip == networkAddr a)

/-- One assigned-IP entry as both allocation strategies read it
(allocator.go 182-194 and 240-250): skip empty strings, try net.ParseCIDR,
fall back to net.ParseIP, skip entries that parse as neither. -/
def parseAssigned (s : String) : Option Nat :=
  if s = "" then none
  else
    match parseCIDR s with
    | some (ip, _, _) => some ip
    | none => parseIPv4 s

/-- Mirrors Allocator.updateAllocatedIPs (allocator.go 224-251).  In the
source both branches of the size heuristic (recreate the map / delete every
key) leave the map empty before it is refilled, so the rebuilt tracking set
is always exactly the gateway plus the parseable user entries. -/
def updateAllocatedIPs (a : Allocator) (existingUsers : List String) : List Nat :=
  a.gateway :: existingUsers.filterMap parseAssigned

/-- The in-use set allocateIPLinear builds (allocator.go 180-198): the
parseable user entries, then the gateway. -/
def buildAllocatedLinear (a : Allocator) (existingUsers : List String) : List Nat :=
  existingUsers.filterMap parseAssigned ++ [a.gateway]

/-- The scan loop shared by both strategies (allocator.go 157-173 and
204-218): break at the first address outside the range, return the first
address missing from the in-use set, otherwise increment and continue.
The fuel argument is the loop bound: `maxAttempts` for the optimized
strategy, and for the unbounded linear loop any fuel past the point where
the last octet reaches 255 (where `isIPInRange` is false and the loop
breaks), see `scanIP_fuel_irrelevant`. -/
def scanIP (a : Allocator) (set : List Nat) : Nat → Nat → Option Nat
  | 0, _ => none
  | fuel + 1, ip =>
    if ¬ isIPInRange a ip then none
    else if ip ∈ set then scanIP a set fuel (incrementIP ip)
    else some ip

/-- allocator.go 156: `int(endIP[last] - startIP[last] + 1)`, on the byte
values of the two range ends (253 for every allocator NewAllocator builds,
whose range always runs from last octet 2 to last octet 254). -/
def maxAttempts (a : Allocator) : Nat :=
  a.endIP % 256 - a.startIP % 256 + 1

/-- The exhaustion error of both strategies (allocator.go 175 and 220):
a plain fmt.Errorf with the formatted range ends. -/
def exhaustedError (a : Allocator) : GoError :=
  .errorString ("no available IPs in range " ++ ipToString a.startIP ++ "-"
    ++ ipToString a.endIP)

/-- Mirrors Allocator.allocateIPOptimized (allocator.go 147-176): rebuild the
tracking set from the users, scan from startIP for at most maxAttempts steps,
record the found address in the tracking set, or fail with the exhaustion
error. -/
def allocateIPOptimized (a : Allocator) (existingUsers : List String) :
    Allocator × Except GoError String :=
  let set := updateAllocatedIPs a existingUsers
  match scanIP a set (maxAttempts a) a.startIP with
  | some ip =>
    ({ a with allocatedIPs := some (ip :: set), lastAllocated := ip },
      .ok (ipToString ip ++ "/32"))
  | none => ({ a with allocatedIPs := some set }, .error (exhaustedError a))

/-- Mirrors Allocator.allocateIPLinear (allocator.go 179-221): build the
in-use set from the users plus the gateway and scan from startIP until the
range check breaks the loop.  The Go loop is unbounded; fuel 256 dominates
its break point (the last octet reaches 255 after at most 253 steps). -/
def allocateIPLinear (a : Allocator) (existingUsers : List String) :
    Except GoError String :=
  let allocated := buildAllocatedLinear a existingUsers
  match scanIP a allocated 256 a.startIP with
  | some ip => .ok (ipToString ip ++ "/32")
  | none => .error (exhaustedError a)

/-- The statistics update of AllocateIP (allocator.go 136-141). -/
def updateStats (a : Allocator) (r : Except GoError String) : Allocator :=
  match r with
  | .ok _ => { a with totalAllocations := a.totalAllocations + 1 }
  | .error _ => { a with failedAllocations := a.failedAllocations + 1 }

/-- Mirrors Allocator.AllocateIP (allocator.go 120-144): dispatch on whether
the tracking map exists, then update the statistics. -/
def AllocateIP (a : Allocator) (existingUsers : List String) :
    Allocator × Except GoError String :=
  match a.allocatedIPs with
  | some _ =>
    let p := allocateIPOptimized a existingUsers
    (updateStats p.1 p.2, p.2)
  | none =>
    let r := allocateIPLinear a existingUsers
    (updateStats a r, r)

/-- The in-use addresses derivable from a known_assignments list alone
(without the allocator's gateway): the parseable entries. -/
def inUse (existingUsers : List String) : List Nat :=
  existingUsers.filterMap parseAssigned

/-- The allocator NewAllocator builds for the default 10.0.0.0/24 pool with
gateway 10.0.0.1 and optimizations on (10.0.0.0 = 167772160), see
`newAllocator_default`. -/
def alloc24 : Allocator :=
  { cidrBase := 167772160, maskBits := 24, gateway := 167772161,
    startIP := 167772162, endIP := 167772414,
    allocatedIPs := some [167772161], lastAllocated := 167772162,
    totalAllocations := 0, failedAllocations := 0 }

/-- The same pool built with optimizations disabled, see
`newAllocator_default_linear`. -/
def alloc24Linear : Allocator :=
  { alloc24 with allocatedIPs := none, lastAllocated := 0 }

/-- The allocator NewAllocator builds for the 10.0.0.0/30 pool with gateway
10.0.0.1, see `newAllocator_slash30`: only 10.0.0.2 and 10.0.0.3 pass its
range check, the configured end 10.0.0.254 lies outside the /30. -/
def alloc30 : Allocator :=
  { alloc24 with maskBits := 30 }

end Ipam

namespace VpnServer

/-- Go map assignment `m[k] = v` on an association list: the new binding
shadows (replaces) any previous binding of the key. -/
def mapSet {α : Type} (m : List (String × α)) (k : String) (v : α) :
    List (String × α) :=
  (k, v) :: m.filter (fun e => !(e.1 == k))

/-- Go map deletion `delete(m, k)`. -/
def mapDelete {α : Type} (m : List (String × α)) (k : String) :
    List (String × α) :=
  m.filter (fun e => !(e.1 == k))

/-- Go map lookup `m[k]`. -/
def mapLookup {α : Type} (m : List (String × α)) (k : String) : Option α :=
  (m.find? (fun e => e.1 == k)).map (fun e => e.2)

/-- JSON documents at value level: what encoding/json's Marshal and
Unmarshal exchange, abstracting the byte-level text (indentation and key
order do not affect Unmarshal).  Only the shapes the peer store produces
are needed: strings and objects. -/
inductive Json where
  | str (s : String)
  | obj (fields : List (String × Json))

/-- Mirrors vpnserver.PeerConfig (the persisted peer record).  Its
`registeredAt` time.Time is modelled by its RFC3339 serialization, the form
in which it crosses the JSON boundary. -/
structure PeerConfig where
  publicKey : String
  allowedIPs : String
  registeredAt : String
deriving DecidableEq, Repr

/-- Mirrors vpnserver.PeerStore: the in-memory mapping plus the canonical
file path. -/
structure PeerStore where
  peers : List (String × PeerConfig)
  filePath : String

/-- The filesystem visible to the peer store: path to document content.
Directories and permission bits are outside the model. -/
structure FS where
  files : List (String × Json)

/-- Content of a path. -/
def FS.lookup (fs : FS) (p : String) : Option Json :=
  (fs.files.find? (fun e => e.1 == p)).map (fun e => e.2)

/-- os.WriteFile: replace the content of one path, touching no other path. -/
def FS.write (fs : FS) (p : String) (d : Json) : FS :=
  ⟨(p, d) :: fs.files.filter (fun e => !(e.1 == p))⟩

/-- Drop a path. -/
def FS.remove (fs : FS) (p : String) : FS :=
  ⟨fs.files.filter (fun e => !(e.1 == p))⟩

/-- os.Rename: move src over dst in one step (atomic within a directory);
fails only when src is absent. -/
def FS.rename (fs : FS) (src dst : String) : FS × Bool :=
  match fs.lookup src with
  | none => (fs, false)
  | some d => ((fs.remove src).write dst d, true)

/-- The primitive filesystem steps PeerStore.save performs, for crash-point
analysis: a crash executes only a prefix of the step list. -/
inductive FsOp where
  | write (path : String) (data : Json)
  | rename (src dst : String)

/-- Effect of one step. -/
def applyOp (fs : FS) : FsOp → FS
  | .write p d => fs.write p d
  | .rename s d => (fs.rename s d).1

/-- Effect of a step sequence. -/
def applyOps (fs : FS) (ops : List FsOp) : FS :=
  ops.foldl applyOp fs

/-- json.Marshal of one PeerConfig. -/
def marshalPeerConfig (c : PeerConfig) : Json :=
  .obj [("publicKey", .str c.publicKey), ("allowedIPs", .str c.allowedIPs),
    ("registeredAt", .str c.registeredAt)]

/-- json.MarshalIndent of the peers map: one object keyed by public key
(key order is irrelevant to Unmarshal and is not modelled). -/
def marshalPeers (m : List (String × PeerConfig)) : Json :=
  .obj (m.map (fun e => (e.1, marshalPeerConfig e.2)))

/-- Field access of json.Unmarshal into a struct: an absent field leaves
the zero value, a field of the wrong shape is an error. -/
def fieldStr (fields : List (String × Json)) (name : String) : Option String :=
  match mapLookup fields name with
  | none => some ""
  | some (.str s) => some s
  | some _ => none

/-- json.Unmarshal of one PeerConfig. -/
def unmarshalPeerConfig (j : Json) : Option PeerConfig :=
  match j with
  | .obj fields => do
    let pk ← fieldStr fields "publicKey"
    let al ← fieldStr fields "allowedIPs"
    let t ← fieldStr fields "registeredAt"
    pure ⟨pk, al, t⟩
  | _ => none

/-- json.Unmarshal of the peers map. -/
def unmarshalPeers (j : Json) : Option (List (String × PeerConfig)) :=
  match j with
  | .obj fields =>
    fields.mapM (fun e => (unmarshalPeerConfig e.2).map (fun c => (e.1, c)))
  | _ => none

/-- The two steps of PeerStore.save (part_011 120-138): write the full
serialized mapping to the temporary path, then rename it over the canonical
path. -/
def saveOps (ps : PeerStore) : List FsOp :=
  [.write (ps.filePath ++ ".tmp") (marshalPeers ps.peers),
   .rename (ps.filePath ++ ".tmp") ps.filePath]

/-- Mirrors PeerStore.save (part_011 120-138).  Marshal never fails on this
data; the rename error branch (remove the temp file, report the error) is
kept although within the model the just-written temp path is always
present. -/
def PeerStore.save (ps : PeerStore) (fs : FS) : FS × Except GoError Unit :=
  let data := marshalPeers ps.peers
  let tempPath := ps.filePath ++ ".tmp"
  let fs1 := fs.write tempPath data
  match fs1.rename tempPath ps.filePath with
  | (fs2, true) => (fs2, .ok ())
  | (_, false) =>
    (fs1.remove tempPath,
      .error (.wrapError "failed to replace peer store file"
        (.errorString "rename error")))

/-- Mirrors PeerStore.AddPeer (part_011 49-60): insert the record (with the
current time) and rewrite the snapshot.  Returns the updated store, the
updated filesystem and save's result. -/
def PeerStore.AddPeer (ps : PeerStore) (fs : FS)
    (publicKey allowedIPs now : String) :
    PeerStore × FS × Except GoError Unit :=
  let ps' := { ps with
    peers := mapSet ps.peers publicKey ⟨publicKey, allowedIPs, now⟩ }
  let r := ps'.save fs
  (ps', r.1, r.2)

/-- Mirrors PeerStore.RemovePeer (part_011 63-69). -/
def PeerStore.RemovePeer (ps : PeerStore) (fs : FS) (publicKey : String) :
    PeerStore × FS × Except GoError Unit :=
  let ps' := { ps with peers := mapDelete ps.peers publicKey }
  let r := ps'.save fs
  (ps', r.1, r.2)

/-- Mirrors PeerStore.GetPeer (part_011 72-78). -/
def PeerStore.GetPeer (ps : PeerStore) (publicKey : String) :
    Option PeerConfig :=
  mapLookup ps.peers publicKey

/-- Mirrors PeerStore.ListPeers (part_011 81-91) at value level: the
returned mapping's contents.  The freshness of the returned map (a copy,
not the internal reference) is modelled separately on the heap, see
`hListPeers`. -/
def PeerStore.ListPeers (ps : PeerStore) : List (String × PeerConfig) :=
  ps.peers

/-- Mirrors PeerStore.Count (part_011 141-145). -/
def PeerStore.Count (ps : PeerStore) : Nat :=
  ps.peers.length

/-- Mirrors PeerStore.load (part_011 94-117): an absent canonical file keeps
the empty initial mapping; otherwise the document must parse.  (A present
but zero-length file also keeps the empty mapping in Go; a byte-empty file
has no JSON-value representation and never arises from save.) -/
def PeerStore.load (fs : FS) (filePath : String) :
    Except GoError (List (String × PeerConfig)) :=
  match fs.lookup filePath with
  | none => .ok []
  | some data =>
    match unmarshalPeers data with
    | some peers => .ok peers
    | none =>
      .error (.wrapError "failed to parse peer store file"
        (.errorString "json unmarshal error"))

/-- Mirrors vpnserver.NewPeerStore (part_011 28-46): the canonical path is
dataDir/peers.json; load existing peers from it. -/
def NewPeerStore (fs : FS) (dataDir : String) : Except GoError PeerStore :=
  let filePath := dataDir ++ "/peers.json"
  match PeerStore.load fs filePath with
  | .ok peers => .ok { peers := peers, filePath := filePath }
  | .error e => .error (.wrapError "failed to load peer store" e)

/-! Heap model for the aliasing behaviour of ListPeers: Go maps are
references into a heap.  A heap cell holds one map's contents; a reference
is a cell index; allocating with `make` appends a fresh cell. -/

/-- The heap of live Go maps of peer records. -/
abbrev Heap : Type := List (List (String × PeerConfig))

/-- Contents of the map a reference points to. -/
def heapGet (h : Heap) (r : Nat) : List (String × PeerConfig) :=
  (List.getD h r [])

/-- In-place mutation (inserts/deletes) of the map a reference points to. -/
def heapSet (h : Heap) (r : Nat) (m : List (String × PeerConfig)) : Heap :=
  List.set h r m

/-- A PeerStore whose peers field is a reference into the heap. -/
structure HPeerStore where
  ref : Nat
  filePath : String

/-- PeerStore.ListPeers (part_011 81-91) with the heap explicit: allocate a
fresh map (`make`), copy every entry of the store's map into it, and return
the fresh reference. -/
def hListPeers (h : Heap) (ps : HPeerStore) : Heap × Nat :=
  (h ++ [heapGet h ps.ref], h.length)

/-- PeerStore.GetPeer with the heap explicit. -/
def hGetPeer (h : Heap) (ps : HPeerStore) (publicKey : String) :
    Option PeerConfig :=
  mapLookup (heapGet h ps.ref) publicKey

/-- PeerStore.Count with the heap explicit. -/
def hCount (h : Heap) (ps : HPeerStore) : Nat :=
  (heapGet h ps.ref).length

/-! The userspace backend (userspace_backend.go). -/

/-- Mirrors vpnserver.ServerConfig (backend.go). -/
structure ServerConfig where
  InterfaceName : String
  PrivateKey : String
  ListenPort : Nat
  ServerIP : String
deriving DecidableEq, Repr

/-- The value of one base64 alphabet character (RFC 4648 standard
alphabet). -/
def b64Index (c : Char) : Option Nat :=
  if 'A' ≤ c ∧ c ≤ 'Z' then some (c.toNat - 65)
  else if 'a' ≤ c ∧ c ≤ 'z' then some (c.toNat - 71)
  else if '0' ≤ c ∧ c ≤ '9' then some (c.toNat + 4)
  else if c = '+' then some 62
  else if c = '/' then some 63
  else none

/-- Go's base64.StdEncoding decoding loop over four-character groups:
padding `=` only closes the final group (two data characters yield one
byte, three yield two), any other shape is an error.  Non-canonical
trailing bits are accepted, as by the non-strict StdEncoding. -/
def decodeBase64Groups : List Char → Option (List Nat)
  | [] => some []
  | c1 :: c2 :: c3 :: c4 :: rest => do
    let v1 ← b64Index c1
    let v2 ← b64Index c2
    if c3 = '=' then
      if c4 = '=' ∧ rest = [] then some [v1 * 4 + v2 / 16] else none
    else do
      let v3 ← b64Index c3
      if c4 = '=' then
        if rest = [] then some [v1 * 4 + v2 / 16, v2 % 16 * 16 + v3 / 4]
        else none
      else do
        let v4 ← b64Index c4
        let tail ← decodeBase64Groups rest
        some ((v1 * 4 + v2 / 16) :: (v2 % 16 * 16 + v3 / 4) :: (v3 % 4 * 64 + v4) :: tail)
  | _ => none

/-- base64.StdEncoding.DecodeString: newlines are ignored, the rest must be
whole four-character groups. -/
def decodeBase64Std (s : String) : Option (List Nat) :=
  decodeBase64Groups (s.data.filter (fun c => !(c == '\r') && !(c == '\n')))

/-- One lowercase hex digit. -/
def hexDigit (n : Nat) : Char :=
  if n < 10 then Char.ofNat (48 + n) else Char.ofNat (87 + n)

/-- hex.EncodeToString over the decoded bytes. -/
def hexEncode (bs : List Nat) : String :=
  String.mk (bs.flatMap (fun b => [hexDigit (b / 16), hexDigit (b % 16)]))

/-- Mirrors UserspaceBackend.base64ToHex (userspace_backend.go 232-243):
decode, require exactly 32 bytes, re-encode as hex.  The wrapped cause of a
decode failure (Go's CorruptInputError with its byte offset) is abstracted
to its kind. -/
def base64ToHex (base64Key : String) : Except GoError String :=
  match decodeBase64Std base64Key with
  | none =>
    .error (.wrapError "failed to decode base64 key"
      (.errorString "illegal base64 data"))
  | some keyBytes =>
    if keyBytes.length ≠ 32 then
      .error (.errorString ("key must be 32 bytes, got "
        ++ toString keyBytes.length))
    else .ok (hexEncode keyBytes)

/-- Mirrors vpnserver.UserspaceBackend (userspace_backend.go 16-22): the
device handle is opaque, the peer-tracking map is publicKey to allowedIPs. -/
structure UserspaceBackend where
  running : Bool
  device : Option Unit
  config : ServerConfig
  peers : List (String × List String)

/-- Results of the backend's external calls: device creation, the device's
IpcSet on a given configuration string, and device start. -/
structure UBEnv where
  newDeviceOk : Bool
  ipcSet : String → Except GoError Unit
  deviceStartOk : Bool

/-- Mirrors UserspaceBackend.applyIPCConfig (userspace_backend.go 221-229). -/
def UserspaceBackend.applyIPCConfig (env : UBEnv) (ub : UserspaceBackend)
    (config : String) : Except GoError Unit :=
  match ub.device with
  | none => .error (.errorString "device not initialized")
  | some _ => env.ipcSet config

/-- Mirrors UserspaceBackend.AddPeer (userspace_backend.go 99-134): require
running, convert the key (conversion failure rejects the call before any
device interaction), apply the IPC peer block, and only then record the peer
in the tracking map. -/
def UserspaceBackend.AddPeer (env : UBEnv) (ub : UserspaceBackend)
    (publicKey : String) (allowedIPs : List String) :
    UserspaceBackend × Except GoError Unit :=
  if !ub.running then (ub, .error (.errorString "backend not running"))
  else
    match base64ToHex publicKey with
    | .error e => (ub, .error (.wrapError "invalid public key format" e))
    | .ok hexPublicKey =>
      let config := "public_key=" ++ hexPublicKey ++ "\n"
        ++ String.join (allowedIPs.map (fun ip => "allowed_ip=" ++ ip ++ "\n"))
        ++ "\n"
      match ub.applyIPCConfig env config with
      | .error e => (ub, .error (.wrapError "failed to add peer via IPC" e))
      | .ok _ => ({ ub with peers := mapSet ub.peers publicKey allowedIPs }, .ok ())

/-- Mirrors UserspaceBackend.configureDevice (userspace_backend.go 205-218). -/
def UserspaceBackend.configureDevice (env : UBEnv) (ub : UserspaceBackend)
    (config : ServerConfig) : Except GoError Unit :=
  match base64ToHex config.PrivateKey with
  | .error e => .error (.wrapError "invalid private key format" e)
  | .ok hexPrivateKey =>
    ub.applyIPCConfig env ("private_key=" ++ hexPrivateKey ++ "\nlisten_port="
      ++ toString config.ListenPort ++ "\n\n")

/-- Mirrors UserspaceBackend.Start (userspace_backend.go 32-70): reject when
already running, create the device, assign it before configuring (the
configure-after-assign ordering), clean up the device on configuration
failure; on start failure the device is stopped but the field is left
assigned, as in the source. -/
def UserspaceBackend.Start (env : UBEnv) (ub : UserspaceBackend)
    (config : ServerConfig) : UserspaceBackend × Except GoError Unit :=
  if ub.running then (ub, .error (.errorString "backend already running"))
  else if !env.newDeviceOk then
    (ub, .error (.wrapError "failed to create WireGuard device"
      (.errorString "device create error")))
  else
    let ub1 := { ub with device := some () }
    match ub1.configureDevice env config with
    | .error e =>
      ({ ub1 with device := none },
        .error (.wrapError "failed to configure device" e))
    | .ok _ =>
      if !env.deviceStartOk then
        (ub1, .error (.wrapError "failed to start device"
          (.errorString "device start error")))
      else ({ ub1 with running := true, config := config }, .ok ())

/-- Mirrors UserspaceBackend.Stop (userspace_backend.go 73-96): a stop while
not running is a no-op success; otherwise a device-stop fault is logged and
cleanup continues, the device handle is dropped and the peer tracking
cleared.  `deviceStopResult` is the device's stop outcome. -/
def UserspaceBackend.Stop (deviceStopResult : Except GoError Unit)
    (ub : UserspaceBackend) : UserspaceBackend × Except GoError Unit :=
  if !ub.running then (ub, .ok ())
  else
    match deviceStopResult with
    | _ => ({ ub with running := false, device := none, peers := [] }, .ok ())

/-! The control plane (server.go). -/

/-- Mirrors vpnserver.VPNServer state (server.go 19-25): the backend is
behind the WireGuardBackend interface; its stop outcome is injected. -/
structure VPNServer where
  running : Bool
  config : ServerConfig
  backend : UserspaceBackend

/-- Result of the backend's Stop as seen through the WireGuardBackend
interface. -/
structure VPNEnv where
  backendStop : Except GoError Unit

/-- Mirrors VPNServer.Stop (server.go 84-103): a stop while not running
returns nil immediately; otherwise the backend is stopped, a backend-stop
error is logged and cleanup continues, and the server transitions to
stopped with a nil return. -/
def VPNServer.Stop (env : VPNEnv) (s : VPNServer) :
    VPNServer × Except GoError Unit :=
  if !s.running then (s, .ok ())
  else
    match env.backendStop with
    | .error _ => ({ s with running := false }, .ok ())
    | .ok _ => ({ s with running := false }, .ok ())

end VpnServer

namespace Tunnel

/-- Mirrors config.ClientConfig as the tunnel manager reads it (the fields
tunnel.go dereferences); registeredAt is not read by Connect. -/
structure ClientConfig where
  ClientPrivateKey : String
  ServerPublicKey : String
  ServerEndpoint : String
  ServerVPNIP : String
  ClientIP : String
deriving DecidableEq, Repr

/-- Mirrors tunnel.TunnelManager runtime state (tunnel.go 468-472), plus a
flag for the VPN subnet route configureFullTrafficRouting adds to the OS
routing table (the external shared resource Connect mutates). -/
structure TunnelManager where
  connected : Bool
  wgDevice : Option Unit
  routesInstalled : Bool
deriving DecidableEq, Repr

/-- Results of Connect's external calls on the Windows userspace path:
device creation, IpcSet, device start, TUN interface index lookup, the
route-add command, and the two reachability probes of verifyConnection. -/
structure TunEnv where
  newDeviceOk : Bool
  ipcSetOk : Bool
  deviceStartOk : Bool
  tunIndexOk : Bool
  routeAddOk : Bool
  pingExternalOk : Bool
  pingTunnelOk : Bool
deriving DecidableEq, Repr

/-- Go's strings.HasPrefix(s, ":") as the tunnel code uses it: whether the
endpoint string begins with a colon (a port-only local endpoint). -/
def startsWithColon (s : String) : Bool :=
  match s.data with
  | [] => false
  | c :: _ => c == ':'

/-- Mirrors tunnel.base64ToHex (tunnel.go 631-637): unlike the server
backend's variant it has no 32-byte length check. -/
def tmBase64ToHex (b64Key : String) : Except GoError String :=
  match VpnServer.decodeBase64Std b64Key with
  | none =>
    .error (.wrapError "invalid base64 key" (.errorString "illegal base64 data"))
  | some keyBytes => .ok (VpnServer.hexEncode keyBytes)

/-- Mirrors TunnelManager.generateWireGuardIPC (tunnel.go 600-628). -/
def generateWireGuardIPC (cfg : ClientConfig) : Except GoError String :=
  match tmBase64ToHex cfg.ClientPrivateKey with
  | .error e =>
    .error (.wrapError "failed to convert client private key to hex" e)
  | .ok clientPrivKeyHex =>
    match tmBase64ToHex cfg.ServerPublicKey with
    | .error e =>
      .error (.wrapError "failed to convert server public key to hex" e)
    | .ok serverPubKeyHex =>
      let endpoint := if startsWithColon cfg.ServerEndpoint then
        "127.0.0.1" ++ cfg.ServerEndpoint else cfg.ServerEndpoint
      .ok ("private_key=" ++ clientPrivKeyHex ++ "\npublic_key="
        ++ serverPubKeyHex ++ "\nendpoint=" ++ endpoint
        ++ "\nallowed_ip=0.0.0.0/0\npersistent_keepalive_interval=25\n")

/-- strings.Split(endpoint, ":")[0]: the host part of the server endpoint. -/
def endpointHost (endpoint : String) : String :=
  String.mk ((Ipam.splitFields ':' endpoint.data).headD [])

/-- Mirrors TunnelManager.configureFullTrafficRouting (tunnel.go 866-895):
fail when no TUN interface index is found; a failing route-add command only
warns, a succeeding one installs the VPN subnet route. -/
def configureFullTrafficRouting (env : TunEnv) (tm : TunnelManager) :
    TunnelManager × Except GoError Unit :=
  if !env.tunIndexOk then
    (tm, .error (.wrapError "failed to get TUN interface index"
      (.errorString "no TUN interface found")))
  else if env.routeAddOk then ({ tm with routesInstalled := true }, .ok ())
  else (tm, .ok ())

/-- Mirrors TunnelManager.configureWindowsVPNRouting (tunnel.go 840-864):
a bare `:port` endpoint means a local server and no route changes. -/
def configureWindowsVPNRouting (env : TunEnv) (cfg : ClientConfig)
    (tm : TunnelManager) : TunnelManager × Except GoError Unit :=
  if startsWithColon cfg.ServerEndpoint then (tm, .ok ())
  else configureFullTrafficRouting env tm

/-- Mirrors TunnelManager.setupWireGuardWindows (tunnel.go 696-750): create
the device, generate and apply the IPC configuration, start the device,
configure routing; each failure after creation stops the device and clears
the handle before returning. -/
def setupWireGuardWindows (env : TunEnv) (cfg : ClientConfig)
    (tm : TunnelManager) : TunnelManager × Except GoError Unit :=
  if !env.newDeviceOk then
    (tm, .error (.wrapError "failed to create WireGuard device"
      (.errorString "device create error")))
  else
    let tm1 := { tm with wgDevice := some () }
    match generateWireGuardIPC cfg with
    | .error e =>
      ({ tm1 with wgDevice := none },
        .error (.wrapError "failed to generate WireGuard config" e))
    | .ok _ =>
      if !env.ipcSetOk then
        ({ tm1 with wgDevice := none },
          .error (.wrapError "failed to configure WireGuard device"
            (.errorString "ipc error")))
      else if !env.deviceStartOk then
        ({ tm1 with wgDevice := none },
          .error (.wrapError "failed to start WireGuard device"
            (.errorString "device start error")))
      else
        match configureWindowsVPNRouting env cfg tm1 with
        | (tm2, .error e) =>
          ({ tm2 with wgDevice := none },
            .error (.wrapError "failed to configure VPN routing" e))
        | (tm2, .ok _) => (tm2, .ok ())

/-- Mirrors TunnelManager.verifyConnection (tunnel.go 912-979): for a remote
server an external ping failure is a definite failure; then the
tunnel-internal address, when configured, decides the outcome; with no
tunnel-internal address configured the probe falls through to failure. -/
def verifyConnection (env : TunEnv) (cfg : ClientConfig) : Bool :=
  let serverIP := endpointHost cfg.ServerEndpoint
  if serverIP ≠ "127.0.0.1" ∧ serverIP ≠ "localhost" then
    if !env.pingExternalOk then false
    else if cfg.ServerVPNIP ≠ "" then env.pingTunnelOk
    else false
  else if cfg.ServerVPNIP ≠ "" then env.pingTunnelOk
  else false

/-- Mirrors TunnelManager.Connect (tunnel.go 482-511) on the Windows
userspace path (the platform whose setup installs routes): reject when
already connected, run interface setup, then verify the handshake; on a
failed verification the connected flag is cleared and an error returned —
with no teardown of the interface or routes the setup installed. -/
def Connect (env : TunEnv) (cfg : ClientConfig) (tm : TunnelManager) :
    TunnelManager × Except GoError Unit :=
  if tm.connected then
    (tm, .error (.errorString "VPN is already connected"))
  else
    match setupWireGuardWindows env cfg tm with
    | (tm1, .error e) =>
      (tm1, .error (.wrapError "failed to setup WireGuard interface" e))
    | (tm1, .ok _) =>
      if verifyConnection env cfg then ({ tm1 with connected := true }, .ok ())
      else
        ({ tm1 with connected := false },
          .error (.errorString
            "VPN handshake failed - interface created but cannot reach server"))

/-- Whether a call succeeded. -/
def exceptOk {ε α : Type} : Except ε α → Bool
  | .ok _ => true
  | .error _ => false

end Tunnel

/-! ## Allocator facts -/

namespace Ipam

theorem newAllocator_default : NewAllocator DefaultConfig = .ok alloc24 := rfl

theorem newAllocator_default_linear :
    NewAllocator { DefaultConfig with EnableOptimizations := false } = .ok alloc24Linear := rfl

theorem newAllocator_slash30 :
    NewAllocator (ConfigFromNetwork "10.0.0.0/30" "10.0.0.1") = .ok alloc30 := rfl

theorem dvd_u32 : (256 : Nat) ∣ u32 := by norm_num [u32]

theorem incrementIP_mod (ip : Nat) : incrementIP ip % 256 = (ip + 1) % 256 :=
  Nat.mod_mod_of_dvd _ dvd_u32

theorem incrementIP_eq (ip : Nat) (h : ip + 1 < u32) : incrementIP ip = ip + 1 :=
  Nat.mod_eq_of_lt h

theorem isIPInRange_octet255 (a : Allocator) (ip : Nat) (hend : a.endIP % 256 ≤ 254)
    (h : ip % 256 = 255) : isIPInRange a ip = false := by
  unfold isIPInRange
  rw [if_pos (Or.inr (by omega))]

/-- The scan result does not depend on the loop bound once the bound reaches
the step at which the last octet hits 255 and the range check breaks the
loop: this equates the optimized strategy's maxAttempts bound with the
linear strategy's unbounded loop. -/
theorem scanIP_fuel_irrelevant (a : Allocator) (set : List Nat)
    (hend : a.endIP % 256 ≤ 254) :
    ∀ (n ip f g : Nat), ip % 256 + n = 255 → n ≤ f → n ≤ g →
      scanIP a set f ip = scanIP a set g ip := by
  intro n
  induction n with
  | zero =>
    intro ip f g h255 _ _
    have hr := isIPInRange_octet255 a ip hend (by omega)
    cases f with
    | zero =>
      cases g with
      | zero => rfl
      | succ g => simp [scanIP, hr]
    | succ f =>
      cases g with
      | zero => simp [scanIP, hr]
      | succ g => simp [scanIP, hr]
  | succ n ih =>
    intro ip f g h255 hf hg
    obtain ⟨f', rfl⟩ : ∃ f', f = f' + 1 := ⟨f - 1, by omega⟩
    obtain ⟨g', rfl⟩ : ∃ g', g = g' + 1 := ⟨g - 1, by omega⟩
    by_cases hr : isIPInRange a ip = true
    · by_cases hm : ip ∈ set
      · have hmod : incrementIP ip % 256 + n = 255 := by
          rw [incrementIP_mod]; omega
        simp only [scanIP, hr, hm]
        simpa using ih (incrementIP ip) f' g' hmod (by omega) (by omega)
      · simp [scanIP, hr, hm]
    · simp [scanIP, hr]

/-- The scan result depends on the in-use set only through membership. -/
theorem scanIP_congr_set (a : Allocator) (s1 s2 : List Nat)
    (h : ∀ x, x ∈ s1 ↔ x ∈ s2) :
    ∀ (f ip : Nat), scanIP a s1 f ip = scanIP a s2 f ip := by
  intro f
  induction f with
  | zero => intro ip; rfl
  | succ f ih =>
    intro ip
    by_cases hr : isIPInRange a ip = true
    · by_cases hm : ip ∈ s1
      · simp [scanIP, hr, hm, (h ip).mp hm, ih]
      · have hm2 : ip ∉ s2 := fun hx => hm ((h ip).mpr hx)
        simp [scanIP, hr, hm, hm2]
    · simp [scanIP, hr]

theorem isIPInRange_congr (a b : Allocator) (h1 : a.cidrBase = b.cidrBase)
    (h2 : a.maskBits = b.maskBits) (h3 : a.startIP = b.startIP)
    (h4 : a.endIP = b.endIP) (ip : Nat) :
    isIPInRange a ip = isIPInRange b ip := by
  simp [isIPInRange, networkAddr, cidrContains, h1, h2, h3, h4]

/-- The scan result depends on the allocator only through its range fields. -/
theorem scanIP_congr_alloc (a b : Allocator) (h1 : a.cidrBase = b.cidrBase)
    (h2 : a.maskBits = b.maskBits) (h3 : a.startIP = b.startIP)
    (h4 : a.endIP = b.endIP) (set : List Nat) :
    ∀ (f ip : Nat), scanIP a set f ip = scanIP b set f ip := by
  intro f
  induction f with
  | zero => intro ip; rfl
  | succ f ih =>
    intro ip
    rw [show scanIP a set (f + 1) ip
      = (if ¬ isIPInRange a ip then none
         else if ip ∈ set then scanIP a set f (incrementIP ip) else some ip) from rfl]
    rw [show scanIP b set (f + 1) ip
      = (if ¬ isIPInRange b ip then none
         else if ip ∈ set then scanIP b set f (incrementIP ip) else some ip) from rfl]
    rw [isIPInRange_congr a b h1 h2 h3 h4 ip, ih]

theorem find?_range'_some : ∀ {n s r : Nat} {p : Nat → Bool},
    (List.range' s n).find? p = some r →
    s ≤ r ∧ r < s + n ∧ p r = true ∧ ∀ j, s ≤ j → j < r → p j = false := by
  intro n
  induction n with
  | zero => intro s r p h; simp at h
  | succ n ih =>
    intro s r p h
    rw [List.range'_succ] at h
    by_cases hp : p s = true
    · rw [List.find?_cons_of_pos _ hp] at h
      obtain rfl : s = r := by injection h
      exact ⟨Nat.le_refl s, by omega, hp, fun j h1 h2 => absurd h1 (by omega)⟩
    · rw [List.find?_cons_of_neg _ hp] at h
      obtain ⟨h1, h2, h3, h4⟩ := ih h
      refine ⟨by omega, by omega, h3, ?_⟩
      intro j hj1 hj2
      by_cases hjs : j = s
      · subst hjs; simpa using hp
      · exact h4 j (by omega) hj2

theorem find?_range'_none {s n : Nat} {p : Nat → Bool} :
    (List.range' s n).find? p = none ↔ ∀ j, s ≤ j → j < s + n → p j = false := by
  rw [List.find?_eq_none]
  constructor
  · intro h j h1 h2
    simpa using h j (List.mem_range'_1.mpr ⟨h1, h2⟩)
  · intro h x hx
    obtain ⟨h1, h2⟩ := List.mem_range'_1.mp hx
    simp [h x h1 h2]

/-- When every scanned candidate passes the range check and the addresses do
not wrap, the scan is the first-match search over the candidate interval. -/
theorem scanIP_eq_find (a : Allocator) (set : List Nat) :
    ∀ (f ip : Nat), ip + f < u32 →
      (∀ k, k < f → isIPInRange a (ip + k) = true) →
      scanIP a set f ip
        = (List.range' ip f).find? (fun x => decide (x ∉ set)) := by
  intro f
  induction f with
  | zero => intro ip _ _; rfl
  | succ f ih =>
    intro ip hw hr
    have h0 : isIPInRange a ip = true := by simpa using hr 0 (by omega)
    rw [List.range'_succ]
    by_cases hm : ip ∈ set
    · rw [List.find?_cons_of_neg _ (by simp [hm])]
      have hstep : scanIP a set (f + 1) ip = scanIP a set f (incrementIP ip) := by
        simp [scanIP, h0, hm]
      rw [hstep, incrementIP_eq ip (by omega)]
      refine ih (ip + 1) (by omega) ?_
      intro k hk
      have h2 : ip + 1 + k = ip + (k + 1) := by omega
      rw [h2]
      exact hr (k + 1) (by omega)
    · rw [List.find?_cons_of_pos _ (by simp [hm])]
      simp [scanIP, h0, hm]

set_option maxRecDepth 8000 in
theorem inRange_alloc24 : ∀ k, k < 253 → isIPInRange alloc24 (167772162 + k) = true := by
  decide

theorem mem_updateAllocatedIPs (a : Allocator) (users : List String) (x : Nat) :
    x ∈ updateAllocatedIPs a users ↔ x = a.gateway ∨ x ∈ inUse users := by
  simp [updateAllocatedIPs, inUse]

theorem mem_buildAllocatedLinear (a : Allocator) (users : List String) (x : Nat) :
    x ∈ buildAllocatedLinear a users ↔ x ∈ inUse users ∨ x = a.gateway := by
  simp [buildAllocatedLinear, inUse]

/-- AllocateIP on an allocator with tracking enabled, as a function of the
scan result. -/
theorem AllocateIP_optimized_eq (a : Allocator) (s : List Nat)
    (h : a.allocatedIPs = some s) (users : List String) :
    (AllocateIP a users).2
      = match scanIP a (updateAllocatedIPs a users) (maxAttempts a) a.startIP with
        | some ip => .ok (ipToString ip ++ "/32")
        | none => .error (exhaustedError a) := by
  unfold AllocateIP
  rw [h]
  unfold allocateIPOptimized
  cases hv : scanIP a (updateAllocatedIPs a users) (maxAttempts a) a.startIP <;>
    simp [hv]

/-- AllocateIP on an allocator with tracking disabled, as a function of the
scan result. -/
theorem AllocateIP_linear_eq (a : Allocator) (h : a.allocatedIPs = none)
    (users : List String) :
    (AllocateIP a users).2
      = match scanIP a (buildAllocatedLinear a users) 256 a.startIP with
        | some ip => .ok (ipToString ip ++ "/32")
        | none => .error (exhaustedError a) := by
  unfold AllocateIP
  rw [h]
  unfold allocateIPLinear
  cases hv : scanIP a (buildAllocatedLinear a users) 256 a.startIP <;>
    simp [hv]

/-- On the default pool, AllocateIP with any internal tracking state is the
first-match search over the 253 assignable addresses against the gateway
plus the snapshot's parseable entries. -/
theorem allocateIP24_eq (s : List Nat) (users : List String) :
    (AllocateIP { alloc24 with allocatedIPs := some s } users).2
      = match (List.range' 167772162 253).find?
            (fun x => decide (x ∉ updateAllocatedIPs alloc24 users)) with
        | some ip => .ok (ipToString ip ++ "/32")
        | none => .error (exhaustedError alloc24) := by
  rw [AllocateIP_optimized_eq { alloc24 with allocatedIPs := some s } s rfl users]
  have hset : updateAllocatedIPs { alloc24 with allocatedIPs := some s } users
      = updateAllocatedIPs alloc24 users := rfl
  have herr : exhaustedError { alloc24 with allocatedIPs := some s }
      = exhaustedError alloc24 := rfl
  rw [hset, herr]
  have hscan : scanIP { alloc24 with allocatedIPs := some s }
        (updateAllocatedIPs alloc24 users) (maxAttempts { alloc24 with allocatedIPs := some s })
        ({ alloc24 with allocatedIPs := some s } : Allocator).startIP
      = (List.range' 167772162 253).find?
          (fun x => decide (x ∉ updateAllocatedIPs alloc24 users)) := by
    rw [scanIP_congr_alloc { alloc24 with allocatedIPs := some s } alloc24
      rfl rfl rfl rfl (updateAllocatedIPs alloc24 users)]
    have hm : maxAttempts { alloc24 with allocatedIPs := some s } = 253 := by
      show alloc24.endIP % 256 - alloc24.startIP % 256 + 1 = 253
      norm_num [alloc24]
    have hst : ({ alloc24 with allocatedIPs := some s } : Allocator).startIP
        = 167772162 := rfl
    rw [hm, hst]
    exact scanIP_eq_find alloc24 _ 253 167772162 (by norm_num [u32]) inRange_alloc24
  rw [hscan]

end Ipam

/-- Claim C1 (counterexample): two successive AllocateIP calls on the same
default optimized allocator, both passed the same empty known_assignments
snapshot and with no release in between, return the same address
10.0.0.2/32 — the results are not pairwise distinct, because
updateAllocatedIPs rebuilds the tracking set from the snapshot on every
call, discarding the address the previous call reserved. -/
theorem allocator_repeat_snapshot_duplicate :
    (Ipam.AllocateIP Ipam.alloc24 []).2 = .ok "10.0.0.2/32"
    ∧ (Ipam.AllocateIP (Ipam.AllocateIP Ipam.alloc24 []).1 []).2 = .ok "10.0.0.2/32" :=
  ⟨rfl, rfl⟩

/-- Claim C1 (amended): in a sequence of AllocateIP calls on one default
optimized allocator with the same known_assignments snapshot and no
release, every call returns the same result whatever the allocator's
internal tracking state (so the successful results are all equal, not
pairwise distinct), and every successfully returned address lies within
[startIP, endIP] and is not in the assigned set derived from
known_assignments. -/
theorem allocator_same_snapshot_results :
    ∀ (s : List Nat) (users : List String),
      (Ipam.AllocateIP { Ipam.alloc24 with allocatedIPs := some s } users).2
          = (Ipam.AllocateIP Ipam.alloc24 users).2
      ∧ ∀ out,
          (Ipam.AllocateIP { Ipam.alloc24 with allocatedIPs := some s } users).2
              = .ok out →
          ∃ ip, out = Ipam.ipToString ip ++ "/32"
            ∧ Ipam.alloc24.startIP ≤ ip ∧ ip ≤ Ipam.alloc24.endIP
            ∧ ip ∉ Ipam.inUse users := by
  intro s users
  constructor
  · rw [Ipam.allocateIP24_eq s users]
    have h24 : (Ipam.AllocateIP Ipam.alloc24 users).2
        = (Ipam.AllocateIP { Ipam.alloc24 with allocatedIPs := some [167772161] } users).2 :=
      rfl
    rw [h24, Ipam.allocateIP24_eq]
  · intro out hout
    rw [Ipam.allocateIP24_eq s users] at hout
    cases hf : (List.range' 167772162 253).find?
        (fun x => decide (x ∉ Ipam.updateAllocatedIPs Ipam.alloc24 users)) with
    | none => rw [hf] at hout; exact absurd hout (by simp)
    | some ip =>
      rw [hf] at hout
      obtain ⟨h1, h2, h3, _⟩ := Ipam.find?_range'_some hf
      have hmem : ip ∉ Ipam.updateAllocatedIPs Ipam.alloc24 users :=
        of_decide_eq_true h3
      rw [Ipam.mem_updateAllocatedIPs] at hmem
      push_neg at hmem
      have hout' : Ipam.ipToString ip ++ "/32" = out := by
        simpa using hout
      have hs : Ipam.alloc24.startIP = 167772162 := rfl
      have he : Ipam.alloc24.endIP = 167772414 := rfl
      exact ⟨ip, hout'.symm, by omega, by omega, hmem.2⟩

/-- Claim C2: on the default 10.0.0.0/24 pool with gateway 10.0.0.1,
AllocateIP is deterministic (a function of the snapshot alone, for every
internal tracking state) and returns the numerically lowest address of
[startIP, endIP] not derivable as in-use from known_assignments, or an
error when no such address exists; in particular with the empty snapshot it
returns 10.0.0.2/32 and with snapshot [10.0.0.2/32, 10.0.0.4/32] it
returns 10.0.0.3/32. -/
theorem allocator_returns_lowest_free :
    (∀ (s : List Nat) (users : List String),
      match (Ipam.AllocateIP { Ipam.alloc24 with allocatedIPs := some s } users).2 with
      | .ok out => ∃ ip, out = Ipam.ipToString ip ++ "/32"
          ∧ Ipam.alloc24.startIP ≤ ip ∧ ip ≤ Ipam.alloc24.endIP
          ∧ ip ∉ Ipam.inUse users
          ∧ ∀ j, Ipam.alloc24.startIP ≤ j → j < ip → j ∈ Ipam.inUse users
      | .error _ => ∀ j, Ipam.alloc24.startIP ≤ j → j ≤ Ipam.alloc24.endIP →
          j ∈ Ipam.inUse users)
    ∧ Ipam.NewAllocator Ipam.DefaultConfig = .ok Ipam.alloc24
    ∧ (Ipam.AllocateIP Ipam.alloc24 []).2 = .ok "10.0.0.2/32"
    ∧ (Ipam.AllocateIP Ipam.alloc24 ["10.0.0.2/32", "10.0.0.4/32"]).2
        = .ok "10.0.0.3/32" := by
  refine ⟨?_, rfl, rfl, rfl⟩
  intro s users
  have hs : Ipam.alloc24.startIP = 167772162 := rfl
  have he : Ipam.alloc24.endIP = 167772414 := rfl
  have hg : Ipam.alloc24.gateway = 167772161 := rfl
  rw [Ipam.allocateIP24_eq s users]
  cases hf : (List.range' 167772162 253).find?
      (fun x => decide (x ∉ Ipam.updateAllocatedIPs Ipam.alloc24 users)) with
  | some ip =>
    obtain ⟨h1, h2, h3, h4⟩ := Ipam.find?_range'_some hf
    have hmem : ip ∉ Ipam.updateAllocatedIPs Ipam.alloc24 users :=
      of_decide_eq_true h3
    rw [Ipam.mem_updateAllocatedIPs] at hmem
    push_neg at hmem
    refine ⟨ip, rfl, by omega, by omega, hmem.2, ?_⟩
    intro j hj1 hj2
    have hdec := h4 j (by omega) hj2
    have hjmem : j ∈ Ipam.updateAllocatedIPs Ipam.alloc24 users := by
      by_contra hc
      rw [decide_eq_false_iff_not] at hdec
      exact hdec hc
    rw [Ipam.mem_updateAllocatedIPs] at hjmem
    rcases hjmem with hjg | hju
    · omega
    · exact hju
  | none =>
    rw [Ipam.find?_range'_none] at hf
    intro j hj1 hj2
    have hdec := hf j (by omega) (by omega)
    have hjmem : j ∈ Ipam.updateAllocatedIPs Ipam.alloc24 users := by
      by_contra hc
      rw [decide_eq_false_iff_not] at hdec
      exact hdec hc
    rw [Ipam.mem_updateAllocatedIPs] at hjmem
    rcases hjmem with hjg | hju
    · omega
    · exact hju

/-- Inversion of NewAllocator: a successfully built allocator comes from a
parsed CIDR and gateway with the gateway inside the network, and its fields
are the parse results with the range set to last octets 2 and 254. -/
theorem NewAllocator_inv (config : Ipam.Config) (a : Ipam.Allocator)
    (h : Ipam.NewAllocator config = .ok a) :
    ∃ ip0 base bits gw,
      Ipam.parseCIDR config.CIDR = some (ip0, base, bits)
      ∧ Ipam.parseIPv4 config.Gateway = some gw
      ∧ Ipam.cidrContains base bits gw = true
      ∧ a = { cidrBase := base, maskBits := bits, gateway := gw,
              startIP := base / 256 * 256 + 2, endIP := base / 256 * 256 + 254,
              allocatedIPs :=
                if config.EnableOptimizations then some [gw] else none,
              lastAllocated :=
                if config.EnableOptimizations then base / 256 * 256 + 2 else 0,
              totalAllocations := 0, failedAllocations := 0 } := by
  unfold Ipam.NewAllocator at h
  rcases hc : Ipam.parseCIDR config.CIDR with _ | ⟨ip0, base, bits⟩
  · rw [hc] at h
    simp at h
  · rw [hc] at h
    dsimp only at h
    rcases hg : Ipam.parseIPv4 config.Gateway with _ | gw
    · rw [hg] at h
      simp at h
    · rw [hg] at h
      dsimp only at h
      by_cases hin : Ipam.cidrContains base bits gw = true
      · rw [if_pos hin] at h
        injection h with h
        exact ⟨ip0, base, bits, gw, rfl, rfl, hin, h.symm⟩
      · rw [if_neg hin] at h
        exact absurd h (by simp)

/-- Claim C3: the two allocation strategies agree on output for every
identical input: for allocators built by NewAllocator from the same CIDR
and gateway, one with optimizations (the internal assigned-set variant) and
one without (the stateless linear scan), a single AllocateIP call with the
same known_assignments list returns the same result — same address string
or the same error. -/
theorem allocator_strategies_agree :
    ∀ (cidr gateway : String) (users : List String) (a al : Ipam.Allocator),
      Ipam.NewAllocator
          { CIDR := cidr, Gateway := gateway, EnableOptimizations := true } = .ok a →
      Ipam.NewAllocator
          { CIDR := cidr, Gateway := gateway, EnableOptimizations := false } = .ok al →
      (Ipam.AllocateIP a users).2 = (Ipam.AllocateIP al users).2 := by
  intro cidr gateway users a al h1 h2
  obtain ⟨i1, b1, t1, g1, hc1, hg1, hin1, ha⟩ := NewAllocator_inv _ _ h1
  obtain ⟨i2, b2, t2, g2, hc2, hg2, hin2, hal⟩ := NewAllocator_inv _ _ h2
  rw [hc1] at hc2
  rw [hg1] at hg2
  simp only [Option.some.injEq, Prod.mk.injEq] at hc2 hg2
  obtain ⟨rfl, rfl, rfl⟩ := hc2
  subst hg2
  have ha2 : a =
      { cidrBase := b1, maskBits := t1, gateway := g1,
        startIP := b1 / 256 * 256 + 2, endIP := b1 / 256 * 256 + 254,
        allocatedIPs := some [g1], lastAllocated := b1 / 256 * 256 + 2,
        totalAllocations := 0, failedAllocations := 0 } := ha
  have hal2 : al =
      { cidrBase := b1, maskBits := t1, gateway := g1,
        startIP := b1 / 256 * 256 + 2, endIP := b1 / 256 * 256 + 254,
        allocatedIPs := none, lastAllocated := 0,
        totalAllocations := 0, failedAllocations := 0 } := hal
  subst ha2
  subst hal2
  rw [Ipam.AllocateIP_optimized_eq _ [g1] rfl users,
    Ipam.AllocateIP_linear_eq _ rfl users]
  have hsetiff : ∀ x,
      x ∈ Ipam.updateAllocatedIPs
        { cidrBase := b1, maskBits := t1, gateway := g1,
          startIP := b1 / 256 * 256 + 2, endIP := b1 / 256 * 256 + 254,
          allocatedIPs := some [g1], lastAllocated := b1 / 256 * 256 + 2,
          totalAllocations := 0, failedAllocations := 0 } users
      ↔ x ∈ Ipam.buildAllocatedLinear
        { cidrBase := b1, maskBits := t1, gateway := g1,
          startIP := b1 / 256 * 256 + 2, endIP := b1 / 256 * 256 + 254,
          allocatedIPs := none, lastAllocated := 0,
          totalAllocations := 0, failedAllocations := 0 } users := by
    intro x
    rw [Ipam.mem_updateAllocatedIPs, Ipam.mem_buildAllocatedLinear]
    exact Or.comm
  have hmax : Ipam.maxAttempts
      { cidrBase := b1, maskBits := t1, gateway := g1,
        startIP := b1 / 256 * 256 + 2, endIP := b1 / 256 * 256 + 254,
        allocatedIPs := some [g1], lastAllocated := b1 / 256 * 256 + 2,
        totalAllocations := 0, failedAllocations := 0 } = 253 := by
    show (b1 / 256 * 256 + 254) % 256 - (b1 / 256 * 256 + 2) % 256 + 1 = 253
    omega
  have hscan :
      Ipam.scanIP
        { cidrBase := b1, maskBits := t1, gateway := g1,
          startIP := b1 / 256 * 256 + 2, endIP := b1 / 256 * 256 + 254,
          allocatedIPs := some [g1], lastAllocated := b1 / 256 * 256 + 2,
          totalAllocations := 0, failedAllocations := 0 }
        (Ipam.updateAllocatedIPs
          { cidrBase := b1, maskBits := t1, gateway := g1,
            startIP := b1 / 256 * 256 + 2, endIP := b1 / 256 * 256 + 254,
            allocatedIPs := some [g1], lastAllocated := b1 / 256 * 256 + 2,
            totalAllocations := 0, failedAllocations := 0 } users)
        253 (b1 / 256 * 256 + 2)
      = Ipam.scanIP
        { cidrBase := b1, maskBits := t1, gateway := g1,
          startIP := b1 / 256 * 256 + 2, endIP := b1 / 256 * 256 + 254,
          allocatedIPs := none, lastAllocated := 0,
          totalAllocations := 0, failedAllocations := 0 }
        (Ipam.buildAllocatedLinear
          { cidrBase := b1, maskBits := t1, gateway := g1,
            startIP := b1 / 256 * 256 + 2, endIP := b1 / 256 * 256 + 254,
            allocatedIPs := none, lastAllocated := 0,
            totalAllocations := 0, failedAllocations := 0 } users)
        256 (b1 / 256 * 256 + 2) := by
    rw [Ipam.scanIP_congr_set _ _ _ hsetiff 253 (b1 / 256 * 256 + 2)]
    rw [Ipam.scanIP_fuel_irrelevant _ _
      (by show (b1 / 256 * 256 + 254) % 256 ≤ 254; omega)
      253 (b1 / 256 * 256 + 2) 253 256
      (by show (b1 / 256 * 256 + 2) % 256 + 253 = 255; omega)
      (Nat.le_refl 253) (by omega)]
    exact Ipam.scanIP_congr_alloc
      { cidrBase := b1, maskBits := t1, gateway := g1,
        startIP := b1 / 256 * 256 + 2, endIP := b1 / 256 * 256 + 254,
        allocatedIPs := some [g1], lastAllocated := b1 / 256 * 256 + 2,
        totalAllocations := 0, failedAllocations := 0 }
      { cidrBase := b1, maskBits := t1, gateway := g1,
        startIP := b1 / 256 * 256 + 2, endIP := b1 / 256 * 256 + 254,
        allocatedIPs := none, lastAllocated := 0,
        totalAllocations := 0, failedAllocations := 0 }
      rfl rfl rfl rfl _ 256 (b1 / 256 * 256 + 2)
  rw [hmax, hscan]
  exact rfl

/-- Claim C3 witness: the two strategies agree on the default pool with the
snapshot [10.0.0.2/32]. -/
theorem allocator_strategies_agree_witness :
    (Ipam.AllocateIP Ipam.alloc24 ["10.0.0.2/32"]).2
      = (Ipam.AllocateIP Ipam.alloc24Linear ["10.0.0.2/32"]).2 :=
  allocator_strategies_agree "10.0.0.0/24" "10.0.0.1" ["10.0.0.2/32"]
    Ipam.alloc24 Ipam.alloc24Linear rfl rfl

set_option maxRecDepth 8000 in
/-- Claim C4 (counterexample): on the 10.0.0.0/30 pool with gateway
10.0.0.1, the third Allocate call after the two possible allocations
returns a plain generic formatted error (fmt.Errorf, dynamic type
errors.errorString) — not a distinct ExhaustedError type a caller could
tell apart from a malformed-input error other than by message text; no
such type exists in the code. -/
theorem allocator_exhaustion_error_is_generic :
    (Ipam.AllocateIP (Ipam.AllocateIP (Ipam.AllocateIP Ipam.alloc30 []).1
          ["10.0.0.2/32"]).1 ["10.0.0.2/32", "10.0.0.3/32"]).2
      = .error (.errorString "no available IPs in range 10.0.0.2-10.0.0.254")
    ∧ GoError.isGenericFormatted
        (.errorString "no available IPs in range 10.0.0.2-10.0.0.254") = true :=
  ⟨rfl, rfl⟩

set_option maxRecDepth 8000 in
/-- Claim C4 (amended): on a 10.0.0.0/30 pool with gateway 10.0.0.1, the
first two Allocate calls succeed (10.0.0.2/32 then 10.0.0.3/32) and the
third returns an allocation-exhausted error; the error is the plain
formatted message of both strategies, not a distinct error type. -/
theorem allocator_exhaustion_returns_generic_error :
    Ipam.NewAllocator (Ipam.ConfigFromNetwork "10.0.0.0/30" "10.0.0.1")
        = .ok Ipam.alloc30
    ∧ (Ipam.AllocateIP Ipam.alloc30 []).2 = .ok "10.0.0.2/32"
    ∧ (Ipam.AllocateIP (Ipam.AllocateIP Ipam.alloc30 []).1 ["10.0.0.2/32"]).2
        = .ok "10.0.0.3/32"
    ∧ (Ipam.AllocateIP (Ipam.AllocateIP (Ipam.AllocateIP Ipam.alloc30 []).1
          ["10.0.0.2/32"]).1 ["10.0.0.2/32", "10.0.0.3/32"]).2
        = .error (Ipam.exhaustedError Ipam.alloc30)
    ∧ Ipam.exhaustedError Ipam.alloc30
        = .errorString "no available IPs in range 10.0.0.2-10.0.0.254" :=
  ⟨rfl, rfl, rfl, rfl, rfl⟩

/-! ## Peer store facts -/

namespace VpnServer

theorem tmpPath_ne (p : String) : ¬ (p ++ ".tmp" = p) := by
  intro h
  have hl := congrArg String.length h
  rw [String.length_append] at hl
  have h4 : (".tmp" : String).length = 4 := rfl
  omega

theorem find?_filter_ne {α : Type} (l : List (String × α)) (p q : String)
    (h : ¬ (p = q)) :
    (l.filter (fun e => !(e.1 == p))).find? (fun e => e.1 == q)
      = l.find? (fun e => e.1 == q) := by
  induction l with
  | nil => rfl
  | cons e l ih =>
    rw [List.filter_cons]
    by_cases hp : (e.1 == p) = true
    · have hep : e.1 = p := by simpa using hp
      have hq : (e.1 == q) = false := by
        rw [beq_eq_false_iff_ne, hep]
        exact h
      rw [if_neg (by simp [hp])]
      rw [List.find?_cons_of_neg _ (by simp [hq])]
      exact ih
    · rw [if_pos (by simp [hp])]
      by_cases hq : (e.1 == q) = true
      · rw [List.find?_cons_of_pos _ (by exact hq),
          List.find?_cons_of_pos _ (by exact hq)]
      · rw [List.find?_cons_of_neg _ (by exact hq),
          List.find?_cons_of_neg _ (by exact hq)]
        exact ih

theorem FS.lookup_write_self (fs : FS) (p : String) (d : Json) :
    (fs.write p d).lookup p = some d := by
  show (List.find? (fun e => e.1 == p)
      ((p, d) :: fs.files.filter (fun e => !(e.1 == p)))).map (fun e => e.2)
    = some d
  rw [List.find?_cons_of_pos _ (by simp)]
  rfl

theorem FS.lookup_write_ne (fs : FS) (p q : String) (d : Json) (h : ¬ (p = q)) :
    (fs.write p d).lookup q = fs.lookup q := by
  show (List.find? (fun e => e.1 == q)
      ((p, d) :: fs.files.filter (fun e => !(e.1 == p)))).map (fun e => e.2)
    = fs.lookup q
  rw [List.find?_cons_of_neg _ (by simp [h])]
  rw [find?_filter_ne fs.files p q h]
  rfl

/-- The full save always succeeds in the model and leaves the freshly
marshalled snapshot at the canonical path. -/
theorem save_writes_canonical (ps : PeerStore) (fs : FS) :
    (ps.save fs).1.lookup ps.filePath = some (marshalPeers ps.peers)
    ∧ (ps.save fs).2 = .ok () := by
  have hren : (fs.write (ps.filePath ++ ".tmp") (marshalPeers ps.peers)).rename
        (ps.filePath ++ ".tmp") ps.filePath
      = (((fs.write (ps.filePath ++ ".tmp") (marshalPeers ps.peers)).remove
            (ps.filePath ++ ".tmp")).write ps.filePath (marshalPeers ps.peers),
          true) := by
    unfold FS.rename
    rw [FS.lookup_write_self]
  have h1 : ps.save fs
      = (((fs.write (ps.filePath ++ ".tmp") (marshalPeers ps.peers)).remove
            (ps.filePath ++ ".tmp")).write ps.filePath (marshalPeers ps.peers),
          .ok ()) := by
    unfold PeerStore.save
    dsimp only
    rw [hren]
  rw [h1]
  exact ⟨FS.lookup_write_self _ _ _, rfl⟩

/-- Prefixes of the save step sequence never leave a third state at the
canonical path: it holds the previous content until the rename, the new
snapshot after it. -/
theorem saveOps_prefix_atomic (ps' : PeerStore) (fs : FS) (n : Nat) :
    (applyOps fs ((saveOps ps').take n)).lookup ps'.filePath
        = fs.lookup ps'.filePath
    ∨ (applyOps fs ((saveOps ps').take n)).lookup ps'.filePath
        = some (marshalPeers ps'.peers) := by
  match n with
  | 0 => exact Or.inl rfl
  | 1 =>
    left
    show (fs.write (ps'.filePath ++ ".tmp") (marshalPeers ps'.peers)).lookup
        ps'.filePath = fs.lookup ps'.filePath
    exact FS.lookup_write_ne _ _ _ _ (tmpPath_ne ps'.filePath)
  | (m + 2) =>
    right
    have htake : (saveOps ps').take (m + 2) = saveOps ps' := by
      apply List.take_of_length_le
      simp [saveOps]
    rw [htake]
    have h1 : applyOps fs (saveOps ps')
        = (FS.rename (fs.write (ps'.filePath ++ ".tmp") (marshalPeers ps'.peers))
            (ps'.filePath ++ ".tmp") ps'.filePath).1 := rfl
    rw [h1]
    unfold FS.rename
    rw [FS.lookup_write_self]
    exact FS.lookup_write_self _ _ _

theorem unmarshalPC_marshalPC (c : PeerConfig) :
    unmarshalPeerConfig (marshalPeerConfig c) = some c := rfl

theorem unmarshal_marshal (m : List (String × PeerConfig)) :
    unmarshalPeers (marshalPeers m) = some m := by
  show (m.map (fun e => (e.1, marshalPeerConfig e.2))).mapM
      (fun e => (unmarshalPeerConfig e.2).map (fun c => (e.1, c))) = some m
  induction m with
  | nil => rfl
  | cons e l ih =>
    rw [List.map_cons, List.mapM_cons, ih]
    rfl

theorem mapLookup_set_self {α : Type} (m : List (String × α)) (k : String)
    (v : α) : mapLookup (mapSet m k v) k = some v := by
  show (List.find? (fun e => e.1 == k)
      ((k, v) :: m.filter (fun e => !(e.1 == k)))).map (fun e => e.2) = some v
  rw [List.find?_cons_of_pos _ (by simp)]
  rfl

theorem mapLookup_delete_self {α : Type} (m : List (String × α)) (k : String) :
    mapLookup (mapDelete m k) k = none := by
  have h : List.find? (fun e => e.1 == k)
      (m.filter (fun e => !(e.1 == k))) = none := by
    rw [List.find?_eq_none]
    intro x hx
    have hmem := (List.mem_filter.mp hx).2
    simp at hmem
    simp [hmem]
  show (List.find? (fun e => e.1 == k)
      (m.filter (fun e => !(e.1 == k)))).map (fun e => e.2) = none
  rw [h]
  rfl

theorem heapGet_set_ne (h : Heap) (r q : Nat)
    (m : List (String × PeerConfig)) (hne : r ≠ q) :
    heapGet (heapSet h r m) q = heapGet h q := by
  unfold heapGet heapSet
  rw [List.getD_eq_getElem?_getD, List.getD_eq_getElem?_getD,
    List.getElem?_set_ne hne]

theorem heapGet_append_lt (h : Heap) (x : List (String × PeerConfig)) (r : Nat)
    (hr : r < h.length) : heapGet (h ++ [x]) r = heapGet h r := by
  unfold heapGet
  rw [List.getD_eq_getElem?_getD, List.getD_eq_getElem?_getD,
    List.getElem?_append_left hr]

end VpnServer

/-- Claim C5: every mutating peer store call (AddPeer, RemovePeer) rewrites
the full snapshot by serializing the entire current mapping, writing it to
the temporary path and renaming it over the canonical path, and at every
crash point (after any prefix of those steps) the canonical path holds
either the previous content or the new complete snapshot — never a partial
document; after the full sequence it holds the new snapshot. -/
theorem peerstore_save_atomic_snapshot :
    ∀ (fs : VpnServer.FS) (ps : VpnServer.PeerStore) (k a t : String) (n : Nat),
      ((VpnServer.applyOps fs ((VpnServer.saveOps { ps with
            peers := VpnServer.mapSet ps.peers k ⟨k, a, t⟩ }).take n)).lookup
            ps.filePath = fs.lookup ps.filePath
        ∨ (VpnServer.applyOps fs ((VpnServer.saveOps { ps with
            peers := VpnServer.mapSet ps.peers k ⟨k, a, t⟩ }).take n)).lookup
            ps.filePath
          = some (VpnServer.marshalPeers (VpnServer.mapSet ps.peers k ⟨k, a, t⟩)))
      ∧ ((VpnServer.applyOps fs ((VpnServer.saveOps { ps with
            peers := VpnServer.mapDelete ps.peers k }).take n)).lookup
            ps.filePath = fs.lookup ps.filePath
        ∨ (VpnServer.applyOps fs ((VpnServer.saveOps { ps with
            peers := VpnServer.mapDelete ps.peers k }).take n)).lookup
            ps.filePath
          = some (VpnServer.marshalPeers (VpnServer.mapDelete ps.peers k)))
      ∧ (VpnServer.PeerStore.AddPeer ps fs k a t).2.1.lookup ps.filePath
          = some (VpnServer.marshalPeers (VpnServer.mapSet ps.peers k ⟨k, a, t⟩))
      ∧ (VpnServer.PeerStore.RemovePeer ps fs k).2.1.lookup ps.filePath
          = some (VpnServer.marshalPeers (VpnServer.mapDelete ps.peers k)) := by
  intro fs ps k a t n
  refine ⟨?_, ?_, ?_, ?_⟩
  · exact VpnServer.saveOps_prefix_atomic
      { ps with peers := VpnServer.mapSet ps.peers k ⟨k, a, t⟩ } fs n
  · exact VpnServer.saveOps_prefix_atomic
      { ps with peers := VpnServer.mapDelete ps.peers k } fs n
  · exact (VpnServer.save_writes_canonical
      { ps with peers := VpnServer.mapSet ps.peers k ⟨k, a, t⟩ } fs).1
  · exact (VpnServer.save_writes_canonical
      { ps with peers := VpnServer.mapDelete ps.peers k } fs).1

/-- Claim C6: peer store persistence round-trips across restart: for every
store state, after AddPeer(k1, a1) succeeds and a new store is constructed
from the same data directory (hence the same file), the listed peers
contain k1 mapped to a record whose allowed address is a1; and after
RemovePeer(k1) succeeds and reconstruction, the listed peers do not contain
k1. -/
theorem peerstore_restart_round_trip :
    ∀ (fs : VpnServer.FS) (peers : List (String × VpnServer.PeerConfig))
      (dataDir k1 a1 t : String),
      ((VpnServer.PeerStore.AddPeer
          ⟨peers, dataDir ++ "/peers.json"⟩ fs k1 a1 t).2.2 = .ok ()
        ∧ ∃ ps2, VpnServer.NewPeerStore
              (VpnServer.PeerStore.AddPeer
                ⟨peers, dataDir ++ "/peers.json"⟩ fs k1 a1 t).2.1 dataDir
            = .ok ps2
          ∧ VpnServer.mapLookup ps2.ListPeers k1 = some ⟨k1, a1, t⟩)
      ∧ ((VpnServer.PeerStore.RemovePeer
          ⟨peers, dataDir ++ "/peers.json"⟩ fs k1).2.2 = .ok ()
        ∧ ∃ ps2, VpnServer.NewPeerStore
              (VpnServer.PeerStore.RemovePeer
                ⟨peers, dataDir ++ "/peers.json"⟩ fs k1).2.1 dataDir
            = .ok ps2
          ∧ VpnServer.mapLookup ps2.ListPeers k1 = none) := by
  intro fs peers dataDir k1 a1 t
  constructor
  · have hsave := VpnServer.save_writes_canonical
      ⟨VpnServer.mapSet peers k1 ⟨k1, a1, t⟩, dataDir ++ "/peers.json"⟩ fs
    have hlook : (VpnServer.PeerStore.AddPeer
          ⟨peers, dataDir ++ "/peers.json"⟩ fs k1 a1 t).2.1.lookup
          (dataDir ++ "/peers.json")
        = some (VpnServer.marshalPeers (VpnServer.mapSet peers k1 ⟨k1, a1, t⟩)) :=
      hsave.1
    refine ⟨hsave.2, ⟨VpnServer.mapSet peers k1 ⟨k1, a1, t⟩,
        dataDir ++ "/peers.json"⟩, ?_, ?_⟩
    · unfold VpnServer.NewPeerStore VpnServer.PeerStore.load
      dsimp only
      rw [hlook]
      dsimp only
      rw [VpnServer.unmarshal_marshal]
    · exact VpnServer.mapLookup_set_self peers k1 ⟨k1, a1, t⟩
  · have hsave := VpnServer.save_writes_canonical
      ⟨VpnServer.mapDelete peers k1, dataDir ++ "/peers.json"⟩ fs
    have hlook : (VpnServer.PeerStore.RemovePeer
          ⟨peers, dataDir ++ "/peers.json"⟩ fs k1).2.1.lookup
          (dataDir ++ "/peers.json")
        = some (VpnServer.marshalPeers (VpnServer.mapDelete peers k1)) :=
      hsave.1
    refine ⟨hsave.2, ⟨VpnServer.mapDelete peers k1,
        dataDir ++ "/peers.json"⟩, ?_, ?_⟩
    · unfold VpnServer.NewPeerStore VpnServer.PeerStore.load
      dsimp only
      rw [hlook]
      dsimp only
      rw [VpnServer.unmarshal_marshal]
    · exact VpnServer.mapLookup_delete_self peers k1

/-- Claim C10: ListPeers returns a freshly allocated map: its reference is
distinct from the store's internal reference while holding the same
entries, and mutating the returned map (applying any insertions or
deletions to its heap cell) leaves the store's internal mapping — and the
results of GetPeer, Count, and subsequent ListPeers — unchanged. -/
theorem listpeers_returns_fresh_map :
    ∀ (h : VpnServer.Heap) (ps : VpnServer.HPeerStore)
      (f : List (String × VpnServer.PeerConfig) →
        List (String × VpnServer.PeerConfig)) (k : String),
      ps.ref < h.length →
      (VpnServer.hListPeers h ps).2 ≠ ps.ref
      ∧ VpnServer.heapGet (VpnServer.hListPeers h ps).1
          (VpnServer.hListPeers h ps).2 = VpnServer.heapGet h ps.ref
      ∧ VpnServer.heapGet (VpnServer.heapSet (VpnServer.hListPeers h ps).1
            (VpnServer.hListPeers h ps).2
            (f (VpnServer.heapGet (VpnServer.hListPeers h ps).1
              (VpnServer.hListPeers h ps).2))) ps.ref
          = VpnServer.heapGet h ps.ref
      ∧ VpnServer.hGetPeer (VpnServer.heapSet (VpnServer.hListPeers h ps).1
            (VpnServer.hListPeers h ps).2
            (f (VpnServer.heapGet (VpnServer.hListPeers h ps).1
              (VpnServer.hListPeers h ps).2))) ps k
          = VpnServer.hGetPeer h ps k
      ∧ VpnServer.hCount (VpnServer.heapSet (VpnServer.hListPeers h ps).1
            (VpnServer.hListPeers h ps).2
            (f (VpnServer.heapGet (VpnServer.hListPeers h ps).1
              (VpnServer.hListPeers h ps).2))) ps
          = VpnServer.hCount h ps := by
  intro h ps f k hr
  have hfresh : (VpnServer.hListPeers h ps).2 ≠ ps.ref := by
    show h.length ≠ ps.ref
    omega
  have hcopy : VpnServer.heapGet (VpnServer.hListPeers h ps).1
      (VpnServer.hListPeers h ps).2 = VpnServer.heapGet h ps.ref := by
    show VpnServer.heapGet (h ++ [VpnServer.heapGet h ps.ref]) h.length
      = VpnServer.heapGet h ps.ref
    unfold VpnServer.heapGet
    rw [List.getD_eq_getElem?_getD, List.getElem?_append_right (Nat.le_refl _)]
    simp
  have hmain : VpnServer.heapGet (VpnServer.heapSet (VpnServer.hListPeers h ps).1
        (VpnServer.hListPeers h ps).2
        (f (VpnServer.heapGet (VpnServer.hListPeers h ps).1
          (VpnServer.hListPeers h ps).2))) ps.ref
      = VpnServer.heapGet h ps.ref := by
    rw [VpnServer.heapGet_set_ne _ _ _ _ (by show h.length ≠ ps.ref; omega)]
    exact VpnServer.heapGet_append_lt h _ ps.ref hr
  refine ⟨hfresh, hcopy, hmain, ?_, ?_⟩
  · unfold VpnServer.hGetPeer
    rw [hmain]
  · unfold VpnServer.hCount
    rw [hmain]

/-- Claim C10 witness: a one-peer store at heap cell 0; inserting a second
peer into the map ListPeers returned leaves the store's cell, GetPeer and
Count unchanged. -/
theorem listpeers_returns_fresh_map_witness :
    (VpnServer.hListPeers
        [[("k1", ⟨"k1", "10.0.0.2/32", "2024-01-01T00:00:00Z"⟩)]]
        ⟨0, "peers.json"⟩).2 ≠ (⟨0, "peers.json"⟩ : VpnServer.HPeerStore).ref
    ∧ VpnServer.heapGet (VpnServer.hListPeers
        [[("k1", ⟨"k1", "10.0.0.2/32", "2024-01-01T00:00:00Z"⟩)]]
        ⟨0, "peers.json"⟩).1
        (VpnServer.hListPeers
          [[("k1", ⟨"k1", "10.0.0.2/32", "2024-01-01T00:00:00Z"⟩)]]
          ⟨0, "peers.json"⟩).2
      = VpnServer.heapGet
          [[("k1", ⟨"k1", "10.0.0.2/32", "2024-01-01T00:00:00Z"⟩)]]
          (⟨0, "peers.json"⟩ : VpnServer.HPeerStore).ref
    ∧ VpnServer.heapGet (VpnServer.heapSet (VpnServer.hListPeers
          [[("k1", ⟨"k1", "10.0.0.2/32", "2024-01-01T00:00:00Z"⟩)]]
          ⟨0, "peers.json"⟩).1
        (VpnServer.hListPeers
          [[("k1", ⟨"k1", "10.0.0.2/32", "2024-01-01T00:00:00Z"⟩)]]
          ⟨0, "peers.json"⟩).2
        ((fun m => VpnServer.mapSet m "k2"
            ⟨"k2", "10.0.0.3/32", "2024-01-01T00:00:00Z"⟩)
          (VpnServer.heapGet (VpnServer.hListPeers
              [[("k1", ⟨"k1", "10.0.0.2/32", "2024-01-01T00:00:00Z"⟩)]]
              ⟨0, "peers.json"⟩).1
            (VpnServer.hListPeers
              [[("k1", ⟨"k1", "10.0.0.2/32", "2024-01-01T00:00:00Z"⟩)]]
              ⟨0, "peers.json"⟩).2))) (⟨0, "peers.json"⟩ : VpnServer.HPeerStore).ref
      = VpnServer.heapGet
          [[("k1", ⟨"k1", "10.0.0.2/32", "2024-01-01T00:00:00Z"⟩)]]
          (⟨0, "peers.json"⟩ : VpnServer.HPeerStore).ref
    ∧ VpnServer.hGetPeer (VpnServer.heapSet (VpnServer.hListPeers
          [[("k1", ⟨"k1", "10.0.0.2/32", "2024-01-01T00:00:00Z"⟩)]]
          ⟨0, "peers.json"⟩).1
        (VpnServer.hListPeers
          [[("k1", ⟨"k1", "10.0.0.2/32", "2024-01-01T00:00:00Z"⟩)]]
          ⟨0, "peers.json"⟩).2
        ((fun m => VpnServer.mapSet m "k2"
            ⟨"k2", "10.0.0.3/32", "2024-01-01T00:00:00Z"⟩)
          (VpnServer.heapGet (VpnServer.hListPeers
              [[("k1", ⟨"k1", "10.0.0.2/32", "2024-01-01T00:00:00Z"⟩)]]
              ⟨0, "peers.json"⟩).1
            (VpnServer.hListPeers
              [[("k1", ⟨"k1", "10.0.0.2/32", "2024-01-01T00:00:00Z"⟩)]]
              ⟨0, "peers.json"⟩).2))) ⟨0, "peers.json"⟩ "k1"
      = VpnServer.hGetPeer
          [[("k1", ⟨"k1", "10.0.0.2/32", "2024-01-01T00:00:00Z"⟩)]]
          ⟨0, "peers.json"⟩ "k1"
    ∧ VpnServer.hCount (VpnServer.heapSet (VpnServer.hListPeers
          [[("k1", ⟨"k1", "10.0.0.2/32", "2024-01-01T00:00:00Z"⟩)]]
          ⟨0, "peers.json"⟩).1
        (VpnServer.hListPeers
          [[("k1", ⟨"k1", "10.0.0.2/32", "2024-01-01T00:00:00Z"⟩)]]
          ⟨0, "peers.json"⟩).2
        ((fun m => VpnServer.mapSet m "k2"
            ⟨"k2", "10.0.0.3/32", "2024-01-01T00:00:00Z"⟩)
          (VpnServer.heapGet (VpnServer.hListPeers
              [[("k1", ⟨"k1", "10.0.0.2/32", "2024-01-01T00:00:00Z"⟩)]]
              ⟨0, "peers.json"⟩).1
            (VpnServer.hListPeers
              [[("k1", ⟨"k1", "10.0.0.2/32", "2024-01-01T00:00:00Z"⟩)]]
              ⟨0, "peers.json"⟩).2))) ⟨0, "peers.json"⟩
      = VpnServer.hCount
          [[("k1", ⟨"k1", "10.0.0.2/32", "2024-01-01T00:00:00Z"⟩)]]
          ⟨0, "peers.json"⟩ :=
  listpeers_returns_fresh_map
    [[("k1", ⟨"k1", "10.0.0.2/32", "2024-01-01T00:00:00Z"⟩)]]
    ⟨0, "peers.json"⟩
    (fun m => VpnServer.mapSet m "k2" ⟨"k2", "10.0.0.3/32", "2024-01-01T00:00:00Z"⟩)
    "k1" (by decide)

/-- Claim C7: for every key string that is not valid base64 of exactly 32
bytes, the userspace backend rejects the call: AddPeer with such a public
key returns an error and leaves the peer-tracking map unchanged, and Start
with such a private key returns an error; both are total functions of the
model (no crash). -/
theorem backend_rejects_invalid_key :
    ∀ (env : VpnServer.UBEnv) (ub : VpnServer.UserspaceBackend) (key : String)
      (ips : List String) (cfg : VpnServer.ServerConfig),
      (VpnServer.decodeBase64Std key).map List.length ≠ some 32 →
      (VpnServer.decodeBase64Std cfg.PrivateKey).map List.length ≠ some 32 →
      (∃ e, (VpnServer.UserspaceBackend.AddPeer env ub key ips).2 = .error e)
      ∧ (VpnServer.UserspaceBackend.AddPeer env ub key ips).1.peers = ub.peers
      ∧ (∃ e, (VpnServer.UserspaceBackend.Start env ub cfg).2 = .error e) := by
  intro env ub key ips cfg hkey hpriv
  have hb64 : ∀ (s : String),
      (VpnServer.decodeBase64Std s).map List.length ≠ some 32 →
      ∃ e, VpnServer.base64ToHex s = .error e := by
    intro s hs
    unfold VpnServer.base64ToHex
    cases hd : VpnServer.decodeBase64Std s with
    | none => exact ⟨_, rfl⟩
    | some bs =>
      have hlen : bs.length ≠ 32 := by
        intro h32
        apply hs
        rw [hd]
        simp [h32]
      dsimp only
      rw [if_pos hlen]
      exact ⟨_, rfl⟩
  obtain ⟨ek, hek⟩ := hb64 key hkey
  obtain ⟨ep, hep⟩ := hb64 cfg.PrivateKey hpriv
  cases hrun : ub.running with
  | true =>
    refine ⟨⟨.wrapError "invalid public key format" ek, ?_⟩, ?_,
      ⟨.errorString "backend already running", ?_⟩⟩
    · simp [VpnServer.UserspaceBackend.AddPeer, hrun, hek]
    · simp [VpnServer.UserspaceBackend.AddPeer, hrun, hek]
    · simp [VpnServer.UserspaceBackend.Start, hrun]
  | false =>
    refine ⟨⟨.errorString "backend not running", ?_⟩, ?_, ?_⟩
    · simp [VpnServer.UserspaceBackend.AddPeer, hrun]
    · simp [VpnServer.UserspaceBackend.AddPeer, hrun]
    · cases hnd : env.newDeviceOk with
      | false =>
        exact ⟨.wrapError "failed to create WireGuard device"
            (.errorString "device create error"),
          by simp [VpnServer.UserspaceBackend.Start, hrun, hnd]⟩
      | true =>
        refine ⟨.wrapError "failed to configure device"
            (.wrapError "invalid private key format" ep), ?_⟩
        have hcd : VpnServer.UserspaceBackend.configureDevice env
            { running := false, device := some (), config := ub.config,
              peers := ub.peers } cfg
            = .error (.wrapError "invalid private key format" ep) := by
          unfold VpnServer.UserspaceBackend.configureDevice
          rw [hep]
        simp [VpnServer.UserspaceBackend.Start, hrun, hnd, hcd]

/-- Claim C7 witness: the one-character string of an exclamation mark is not
valid base64 of 32 bytes, and the corresponding AddPeer and Start calls on
a concrete backend are rejected without touching the tracking map. -/
theorem backend_rejects_invalid_key_witness :
    (VpnServer.decodeBase64Std "!").map List.length ≠ some 32
    ∧ ((∃ e, (VpnServer.UserspaceBackend.AddPeer
          ⟨true, fun _ => .ok (), true⟩
          ⟨true, some (), ⟨"wg0", "sk", 51820, "10.0.0.1/24"⟩, []⟩
          "!" ["10.0.0.2/32"]).2 = .error e)
      ∧ (VpnServer.UserspaceBackend.AddPeer ⟨true, fun _ => .ok (), true⟩
          ⟨true, some (), ⟨"wg0", "sk", 51820, "10.0.0.1/24"⟩, []⟩
          "!" ["10.0.0.2/32"]).1.peers
        = (⟨true, some (), ⟨"wg0", "sk", 51820, "10.0.0.1/24"⟩, []⟩ :
            VpnServer.UserspaceBackend).peers
      ∧ (∃ e, (VpnServer.UserspaceBackend.Start ⟨true, fun _ => .ok (), true⟩
          ⟨true, some (), ⟨"wg0", "sk", 51820, "10.0.0.1/24"⟩, []⟩
          ⟨"wg0", "!", 51820, "10.0.0.1/24"⟩).2 = .error e)) :=
  ⟨by decide, backend_rejects_invalid_key ⟨true, fun _ => .ok (), true⟩
    ⟨true, some (), ⟨"wg0", "sk", 51820, "10.0.0.1/24"⟩, []⟩
    "!" ["10.0.0.2/32"] ⟨"wg0", "!", 51820, "10.0.0.1/24"⟩
    (by decide) (by decide)⟩

/-- Claim C8: VPNServer.Stop is idempotent: it always returns success,
leaves the server stopped, and a second Stop on the already-stopped server
is a no-op success regardless of the backend's stop outcome; a backend-stop
error is logged but never makes Stop fail. -/
theorem vpnserver_stop_idempotent :
    ∀ (s : VpnServer.VPNServer) (env1 env2 : VpnServer.VPNEnv),
      (VpnServer.VPNServer.Stop env1 s).2 = .ok ()
      ∧ (VpnServer.VPNServer.Stop env1 s).1.running = false
      ∧ VpnServer.VPNServer.Stop env2 (VpnServer.VPNServer.Stop env1 s).1
        = ((VpnServer.VPNServer.Stop env1 s).1, .ok ()) := by
  intro s env1 env2
  cases hrun : s.running with
  | false =>
    have h1 : VpnServer.VPNServer.Stop env1 s = (s, .ok ()) := by
      simp [VpnServer.VPNServer.Stop, hrun]
    rw [h1]
    exact ⟨rfl, hrun, by simp [VpnServer.VPNServer.Stop, hrun]⟩
  | true =>
    have h1 : VpnServer.VPNServer.Stop env1 s
        = ({ s with running := false }, .ok ()) := by
      cases hbs : env1.backendStop with
      | ok u => simp [VpnServer.VPNServer.Stop, hrun, hbs]
      | error e => simp [VpnServer.VPNServer.Stop, hrun, hbs]
    rw [h1]
    exact ⟨rfl, rfl, by simp [VpnServer.VPNServer.Stop]⟩

/-- Every exit of the Windows interface setup either fails having unwound
completely (device handle cleared, no route installed, back to the initial
clean state) or succeeds with the device handle assigned. -/
theorem setup_spec (env : Tunnel.TunEnv) (cfg : Tunnel.ClientConfig) :
    (∃ e, Tunnel.setupWireGuardWindows env cfg ⟨false, none, false⟩
        = (⟨false, none, false⟩, .error e))
    ∨ (∃ r, Tunnel.setupWireGuardWindows env cfg ⟨false, none, false⟩
        = (⟨false, some (), r⟩, .ok ())) := by
  cases hnd : env.newDeviceOk
  · exact Or.inl ⟨.wrapError "failed to create WireGuard device"
      (.errorString "device create error"),
      by simp [Tunnel.setupWireGuardWindows, hnd]⟩
  · cases hgen : Tunnel.generateWireGuardIPC cfg with
    | error e =>
      exact Or.inl ⟨.wrapError "failed to generate WireGuard config" e,
        by simp [Tunnel.setupWireGuardWindows, hnd, hgen]⟩
    | ok c =>
      cases hipc : env.ipcSetOk
      · exact Or.inl ⟨.wrapError "failed to configure WireGuard device"
          (.errorString "ipc error"),
          by simp [Tunnel.setupWireGuardWindows, hnd, hgen, hipc]⟩
      · cases hds : env.deviceStartOk
        · exact Or.inl ⟨.wrapError "failed to start WireGuard device"
            (.errorString "device start error"),
            by simp [Tunnel.setupWireGuardWindows, hnd, hgen, hipc, hds]⟩
        · cases hsw : Tunnel.startsWithColon cfg.ServerEndpoint
          · cases hti : env.tunIndexOk
            · exact Or.inl ⟨.wrapError "failed to configure VPN routing"
                (.wrapError "failed to get TUN interface index"
                  (.errorString "no TUN interface found")),
                by simp [Tunnel.setupWireGuardWindows,
                  Tunnel.configureWindowsVPNRouting,
                  Tunnel.configureFullTrafficRouting, hnd, hgen, hipc, hds,
                  hsw, hti]⟩
            · cases hra : env.routeAddOk
              · exact Or.inr ⟨false, by simp [Tunnel.setupWireGuardWindows,
                  Tunnel.configureWindowsVPNRouting,
                  Tunnel.configureFullTrafficRouting, hnd, hgen, hipc, hds,
                  hsw, hti, hra]⟩
              · exact Or.inr ⟨true, by simp [Tunnel.setupWireGuardWindows,
                  Tunnel.configureWindowsVPNRouting,
                  Tunnel.configureFullTrafficRouting, hnd, hgen, hipc, hds,
                  hsw, hti, hra]⟩
          · exact Or.inr ⟨false, by simp [Tunnel.setupWireGuardWindows,
              Tunnel.configureWindowsVPNRouting, hnd, hgen, hipc, hds, hsw]⟩

set_option maxRecDepth 8000 in
/-- Claim C9 (counterexample): a Connect on a clean session against a
remote server where every setup step succeeds, the route is installed and
the external probe succeeds but the tunnel-internal probe fails, returns an
error while the created interface handle and the installed route remain in
place — the session is not unwound before the error returns. -/
theorem connect_probe_failure_leaves_state :
    (Tunnel.Connect ⟨true, true, true, true, true, true, false⟩
        ⟨"AAAAAAAAAAAAAAAAAAAAAAAAAAAAAAAAAAAAAAAAAAA=",
          "AAAAAAAAAAAAAAAAAAAAAAAAAAAAAAAAAAAAAAAAAAA=",
          "203.0.113.5:51820", "10.0.0.1", "10.0.0.2/32"⟩
        ⟨false, none, false⟩).2
      = .error (.errorString
          "VPN handshake failed - interface created but cannot reach server")
    ∧ (Tunnel.Connect ⟨true, true, true, true, true, true, false⟩
        ⟨"AAAAAAAAAAAAAAAAAAAAAAAAAAAAAAAAAAAAAAAAAAA=",
          "AAAAAAAAAAAAAAAAAAAAAAAAAAAAAAAAAAAAAAAAAAA=",
          "203.0.113.5:51820", "10.0.0.1", "10.0.0.2/32"⟩
        ⟨false, none, false⟩).1.wgDevice = some ()
    ∧ (Tunnel.Connect ⟨true, true, true, true, true, true, false⟩
        ⟨"AAAAAAAAAAAAAAAAAAAAAAAAAAAAAAAAAAAAAAAAAAA=",
          "AAAAAAAAAAAAAAAAAAAAAAAAAAAAAAAAAAAAAAAAAAA=",
          "203.0.113.5:51820", "10.0.0.1", "10.0.0.2/32"⟩
        ⟨false, none, false⟩).1.routesInstalled = true
    ∧ (Tunnel.Connect ⟨true, true, true, true, true, true, false⟩
        ⟨"AAAAAAAAAAAAAAAAAAAAAAAAAAAAAAAAAAAAAAAAAAA=",
          "AAAAAAAAAAAAAAAAAAAAAAAAAAAAAAAAAAAAAAAAAAA=",
          "203.0.113.5:51820", "10.0.0.1", "10.0.0.2/32"⟩
        ⟨false, none, false⟩).1.connected = false :=
  ⟨rfl, rfl, rfl, rfl⟩

/-- Claim C9 (amended): starting from a clean session, Connect never leaves
the session marked connected on failure (the connected flag equals the call
succeeding), and every setup-step failure unwinds completely — the device
handle is cleared and no route is left installed.  But when setup succeeds
and the final reachability probe fails, Connect returns the handshake error
with the created interface handle and any installed route left exactly as
setup left them: the probe-failure path performs no unwinding. -/
theorem connect_unwind_amended :
    ∀ (env : Tunnel.TunEnv) (cfg : Tunnel.ClientConfig),
      ((Tunnel.Connect env cfg ⟨false, none, false⟩).1.connected
        = Tunnel.exceptOk (Tunnel.Connect env cfg ⟨false, none, false⟩).2)
      ∧ (∀ e, (Tunnel.setupWireGuardWindows env cfg ⟨false, none, false⟩).2
            = .error e →
          (Tunnel.Connect env cfg ⟨false, none, false⟩).1.wgDevice = none
          ∧ (Tunnel.Connect env cfg ⟨false, none, false⟩).1.routesInstalled
            = false)
      ∧ ((Tunnel.setupWireGuardWindows env cfg ⟨false, none, false⟩).2 = .ok () →
          Tunnel.verifyConnection env cfg = false →
          (Tunnel.Connect env cfg ⟨false, none, false⟩).2
            = .error (.errorString
              "VPN handshake failed - interface created but cannot reach server")
          ∧ (Tunnel.Connect env cfg ⟨false, none, false⟩).1.wgDevice
            = (Tunnel.setupWireGuardWindows env cfg ⟨false, none, false⟩).1.wgDevice
          ∧ (Tunnel.Connect env cfg ⟨false, none, false⟩).1.routesInstalled
            = (Tunnel.setupWireGuardWindows env cfg
                ⟨false, none, false⟩).1.routesInstalled) := by
  intro env cfg
  rcases setup_spec env cfg with ⟨e, hsetup⟩ | ⟨r, hsetup⟩
  · have hconn : Tunnel.Connect env cfg ⟨false, none, false⟩
        = (⟨false, none, false⟩,
          .error (.wrapError "failed to setup WireGuard interface" e)) := by
      simp [Tunnel.Connect, hsetup]
    refine ⟨?_, ?_, ?_⟩
    · rw [hconn]; rfl
    · intro e' _
      rw [hconn]
      exact ⟨rfl, rfl⟩
    · intro hok
      rw [hsetup] at hok
      exact absurd hok (by simp)
  · cases hv : Tunnel.verifyConnection env cfg
    · have hconn : Tunnel.Connect env cfg ⟨false, none, false⟩
          = (⟨false, some (), r⟩, .error (.errorString
            "VPN handshake failed - interface created but cannot reach server")) := by
        simp [Tunnel.Connect, hsetup, hv]
      refine ⟨by rw [hconn]; rfl, ?_, ?_⟩
      · intro e' he'
        rw [hsetup] at he'
        exact absurd he' (by simp)
      · intro _ _
        rw [hconn, hsetup]
        exact ⟨rfl, rfl, rfl⟩
    · have hconn : Tunnel.Connect env cfg ⟨false, none, false⟩
          = (⟨true, some (), r⟩, .ok ()) := by
        simp [Tunnel.Connect, hsetup, hv]
      refine ⟨by rw [hconn]; rfl, ?_, ?_⟩
      · intro e' he'
        rw [hsetup] at he'
        exact absurd he' (by simp)
      · intro _ hv'
        exact absurd hv' (by simp)
